import Mathlib

/-!
# lttng-ust: transport registry, vgid credential cache, vgid context field,
enum descriptor table, channel objects

Shallow embedding of `src/liblttng-ust/ust-core.c` and
`liblttng-ust/lttng-context-vgid.c`.

Conventions of the embedding:

* a C pointer is a natural number (an address); `NULL` results are `Option.none`;
* a `cds_list` is the sequence of nodes reached from the list head by following
  `next`, in that order; the list head itself is not an element;
* global variables are fields of an explicit state that every function takes
  and returns;
* results of fallible library calls (allocation, `getgid`) are arguments;
* calls run one at a time, except in the line-by-line model of `get_vgid`, where
  the lines of several threads interleave.
-/

namespace LttngUst

/-! ## Transport registry (`ust-core.c`) -/

/-- Address of a transport descriptor: `struct lttng_transport *` or
`struct lttng_counter_transport *`. Two transports are the same transport
exactly when their addresses are equal. -/
abbrev Ptr := Nat

/-- The two file-scope lists of `ust-core.c`:
`static CDS_LIST_HEAD(lttng_transport_list)` and
`static CDS_LIST_HEAD(lttng_counter_transport_list)`. -/
structure Globals where
  lttng_transport_list : List Ptr
  lttng_counter_transport_list : List Ptr
  deriving DecidableEq, Repr

/-- Both lists are empty at program start (`CDS_LIST_HEAD` initialiser). -/
def Globals.init : Globals := ⟨[], []⟩

/-- `cds_list_add_tail(&node, &head)`: link the node just before the head, that
is, after the current last element. -/
def cds_list_add_tail (node : Ptr) (head : List Ptr) : List Ptr :=
  head ++ [node]

/-- `cds_list_del(&node)`: unlink that node from the list it is on. The
neighbours of the node are joined, all other links are untouched. -/
def cds_list_del (node : Ptr) (head : List Ptr) : List Ptr :=
  head.erase node

/-- The loop shared by both `find` functions:
`cds_list_for_each_entry(transport, head, node) { if (!strcmp(transport->name, name)) return transport; } return NULL;`
where `tname p` is the memory read `p->name`. -/
def transport_scan (tname : Ptr → String) (name : String) : List Ptr → Option Ptr
  | [] => none
  | transport :: rest =>
    if tname transport = name then some transport
    else transport_scan tname name rest

/-- `lttng_ust_transport_find(name)`. -/
def lttng_ust_transport_find (tname : Ptr → String) (g : Globals) (name : String) :
    Option Ptr :=
  transport_scan tname name g.lttng_transport_list

/-- `lttng_counter_transport_find(name)`. -/
def lttng_counter_transport_find (tname : Ptr → String) (g : Globals) (name : String) :
    Option Ptr :=
  transport_scan tname name g.lttng_counter_transport_list

/-- `lttng_transport_register(transport)`. -/
def lttng_transport_register (transport : Ptr) (g : Globals) : Globals :=
  { g with lttng_transport_list := cds_list_add_tail transport g.lttng_transport_list }

/-- `lttng_transport_unregister(transport)`. -/
def lttng_transport_unregister (transport : Ptr) (g : Globals) : Globals :=
  { g with lttng_transport_list := cds_list_del transport g.lttng_transport_list }

/-- `lttng_counter_transport_register(transport)`. -/
def lttng_counter_transport_register (transport : Ptr) (g : Globals) : Globals :=
  { g with
    lttng_counter_transport_list :=
      cds_list_add_tail transport g.lttng_counter_transport_list }

/-- `lttng_counter_transport_unregister(transport)`. -/
def lttng_counter_transport_unregister (transport : Ptr) (g : Globals) : Globals :=
  { g with
    lttng_counter_transport_list := cds_list_del transport g.lttng_counter_transport_list }

/-- `t` is the first node of `l` whose name is `name`: `l` splits around `t`
and no node before `t` carries that name. -/
def FirstNamed (tname : Ptr → String) (l : List Ptr) (name : String) (t : Ptr) : Prop :=
  ∃ pre post, l = pre ++ t :: post ∧ tname t = name ∧ ∀ u ∈ pre, tname u ≠ name

/-- `l` with exactly the node `t` taken out: `l` splits around `t`, the result
is the two sides joined, and `t` is on neither side. -/
def RemovedFrom (l : List Ptr) (t : Ptr) (l' : List Ptr) : Prop :=
  ∃ pre post, l = pre ++ t :: post ∧ l' = pre ++ post ∧ t ∉ pre ∧ t ∉ post

/-! ## Virtual group id cache (`lttng-context-vgid.c`) -/

/-- The conversion `(gid_t) x`: `gid_t` is an unsigned 32-bit integer, so the
value is taken modulo `2^32`. -/
def gid_t_cast (x : Int) : Nat := (x % 2 ^ 32).toNat

/-- Modelled from the spec: `creds.h`, which defines `INVALID_GID`, is not
part of the sources. The spec describes a single distinguished "invalid"
sentinel held by the cache cell; `get_vgid` tests the cell against
`(gid_t) -1`, which is that sentinel. -/
def INVALID_GID : Nat := gid_t_cast (-1)

/-- The file-scope cell `static gid_t cached_vgid`, together with a count of
the `getgid()` system calls performed so far (the count is bookkeeping of the
embedding: it lets a theorem say that no query took place). -/
structure VgidState where
  cached_vgid : Nat
  getgid_calls : Nat
  deriving DecidableEq, Repr

/-- Value of the cell at program start: `static gid_t cached_vgid = INVALID_GID;`. -/
def VgidState.init : VgidState := ⟨INVALID_GID, 0⟩

/-- `get_vgid()`. The argument `getgid` is the value the system call `getgid()`
returns if it is issued now. The result is the returned gid and the new state. -/
def get_vgid (getgid : Nat) (s : VgidState) : Nat × VgidState :=
  let vgid := s.cached_vgid
  if s.cached_vgid = gid_t_cast (-1) then
    let vgid := getgid
    (vgid, { cached_vgid := vgid, getgid_calls := s.getgid_calls + 1 })
  else
    (vgid, s)

/-- `lttng_context_vgid_reset()`: `CMM_STORE_SHARED(cached_vgid, INVALID_GID)`. -/
def lttng_context_vgid_reset (s : VgidState) : VgidState :=
  { s with cached_vgid := INVALID_GID }

/-- A sequence of `get_vgid()` calls with no reset in between; `gs` lists what
`getgid()` would return at each call. Returns the values read, in order, and
the final state. -/
def get_vgid_seq : List Nat → VgidState → List Nat × VgidState
  | [], s => ([], s)
  | g :: gs, s =>
    let r := get_vgid g s
    let rest := get_vgid_seq gs r.2
    (r.1 :: rest.1, rest.2)

/-! ## The "vgid" context field (`lttng-context-vgid.c`) -/

/-- `CHAR_BIT` of `<limits.h>`. -/
def CHAR_BIT : Nat := 8

/-- `sizeof(gid_t)`: four bytes. -/
def sizeof_gid_t : Nat := 4

/-- `ENOMEM` of `<errno.h>`. -/
def ENOMEM : Int := 12

/-- `EEXIST` of `<errno.h>`. -/
def EEXIST : Int := 17

/-- Byte orders that `BYTE_ORDER` can name. -/
inductive ByteOrder where
  | LITTLE_ENDIAN
  | BIG_ENDIAN
  deriving DecidableEq, Repr

/-- What the build fixes and the sources at hand do not: the value of
`lttng_ust_rb_alignof(gid_t)` in bytes (the natural alignment, or 1 when the
ring buffer is packed) and `BYTE_ORDER`. -/
structure Target where
  rb_alignof_gid_t : Nat
  BYTE_ORDER : ByteOrder
  deriving DecidableEq, Repr

/-- Addresses of the callbacks a context field can point to. -/
inductive FnPtr where
  | vgid_get_size
  | vgid_record
  | vgid_get_value
  | other (addr : Nat)
  deriving DecidableEq, Repr

/-- A type descriptor (`struct lttng_ust_type_common`): the integer type with
the five arguments of `lttng_ust_create_type_integer`, or some other type. -/
inductive lttng_ust_type_common where
  | integer (size alignment : Nat) (signedness : Bool) (byte_order : ByteOrder) (base : Nat)
  | other (tag : Nat)
  deriving DecidableEq, Repr

/-- A context field (`struct lttng_ust_ctx_field` with its `event_field`).
A pointer member that is `NULL` is `none`. -/
structure lttng_ust_ctx_field where
  name : Option String
  type : Option lttng_ust_type_common
  get_size : Option FnPtr
  record : Option FnPtr
  get_value : Option FnPtr
  deriving DecidableEq, Repr

/-- A freshly allocated, zero-filled field: every pointer member is `NULL`. -/
def lttng_ust_ctx_field.blank : lttng_ust_ctx_field := ⟨none, none, none, none, none⟩

/-- State touched by `lttng_add_vgid_to_ctx`: the context list `*ctx` in order,
the type descriptors that were created and not destroyed, and the number of
context update notifications issued. -/
structure CtxState where
  fields : List lttng_ust_ctx_field
  live_types : List lttng_ust_type_common
  updates : Nat
  deriving DecidableEq, Repr

/-- The three allocations `lttng_add_vgid_to_ctx` can make. -/
inductive AllocSite where
  | type_descriptor
  | context_field
  | name_string
  deriving DecidableEq, Repr

/-- Outcome of each allocation of one call, should the call reach it. -/
structure AllocOutcomes where
  type_ok : Bool
  append_ok : Bool
  strdup_ok : Bool
  deriving DecidableEq, Repr

/-- Modelled from the spec: `lttng_ust_create_type_integer` is not part of the
sources. It allocates a type descriptor for an integer type of the given width,
alignment, signedness, byte order and base; it returns `NULL` and changes
nothing when the allocation fails. -/
def lttng_ust_create_type_integer (ok : Bool) (size alignment : Nat) (signedness : Bool)
    (byte_order : ByteOrder) (base : Nat) (s : CtxState) :
    Option lttng_ust_type_common × CtxState :=
  if ok then
    let t := lttng_ust_type_common.integer size alignment signedness byte_order base
    (some t, { s with live_types := t :: s.live_types })
  else
    (none, s)

/-- Modelled from the spec: `lttng_ust_destroy_type` is not part of the sources.
It releases one type descriptor. -/
def lttng_ust_destroy_type (type : lttng_ust_type_common) (s : CtxState) : CtxState :=
  { s with live_types := s.live_types.erase type }

/-- Modelled from the spec: `lttng_append_context` is not part of the sources.
It allocates a list node and appends it to the end of the context list; the new
node has no name yet. The handle it returns is the position of the node in the
list. On allocation failure it returns `NULL` and the list is unmodified. -/
def lttng_append_context (ok : Bool) (s : CtxState) : Option Nat × CtxState :=
  if ok then
    (some s.fields.length, { s with fields := s.fields ++ [lttng_ust_ctx_field.blank] })
  else
    (none, s)

/-- Modelled from the spec: `lttng_find_context` is not part of the sources.
It is a linear existence check by name across the current context list, with
case-sensitive exact match. -/
def lttng_find_context (name : String) : List lttng_ust_ctx_field → Bool
  | [] => false
  | f :: rest => if f.name = some name then true else lttng_find_context name rest

/-- Modelled from the spec: `lttng_remove_context_field` is not part of the
sources. It unlinks the node designated by the handle. -/
def lttng_remove_context_field (field : Nat) (s : CtxState) : CtxState :=
  { s with fields := s.fields.eraseIdx field }

/-- Modelled from the spec: `lttng_context_update` is not part of the sources.
It advances the context generation so that consumers know to recompile. -/
def lttng_context_update (s : CtxState) : CtxState :=
  { s with updates := s.updates + 1 }

/-- `strdup(str)`: a copy of the string, or `NULL` when the allocation fails. -/
def strdup (ok : Bool) (str : String) : Option String :=
  if ok then some str else none

/-- The assignments through `field` on the success path of
`lttng_add_vgid_to_ctx`: name, type and the three callbacks. -/
def vgid_fill (name : String) (type : lttng_ust_type_common) (f : lttng_ust_ctx_field) :
    lttng_ust_ctx_field :=
  { f with
    name := some name
    type := some type
    get_size := some FnPtr.vgid_get_size
    record := some FnPtr.vgid_record
    get_value := some FnPtr.vgid_get_value }

/-- What one call of `lttng_add_vgid_to_ctx` yields: the returned `int`, the
state after the call, and the allocations the call made with their outcome. -/
structure AddOutcome where
  ret : Int
  state : CtxState
  allocs : List (AllocSite × Bool)
  deriving DecidableEq, Repr

/-- `lttng_add_vgid_to_ctx(ctx)`. The labels of the C function are kept as
comments; `o` gives the outcome of each allocation the call reaches. -/
def lttng_add_vgid_to_ctx (tgt : Target) (o : AllocOutcomes) (s : CtxState) : AddOutcome :=
  match lttng_ust_create_type_integer o.type_ok (sizeof_gid_t * CHAR_BIT)
      (tgt.rb_alignof_gid_t * CHAR_BIT) false tgt.BYTE_ORDER 10 s with
  | (none, s1) =>
    ⟨-ENOMEM, s1, [(AllocSite.type_descriptor, false)]⟩
  | (some type, s1) =>
    match lttng_append_context o.append_ok s1 with
    | (none, s2) =>
      -- error_context:
      ⟨-ENOMEM, lttng_ust_destroy_type type s2,
        [(AllocSite.type_descriptor, true), (AllocSite.context_field, false)]⟩
    | (some field, s2) =>
      if lttng_find_context "vgid" s2.fields then
        -- error_find_context:
        let s3 := lttng_remove_context_field field s2
        -- error_context:
        ⟨-EEXIST, lttng_ust_destroy_type type s3,
          [(AllocSite.type_descriptor, true), (AllocSite.context_field, true)]⟩
      else
        match strdup o.strdup_ok "vgid" with
        | none =>
          -- error_name:
          let s3 := lttng_remove_context_field field s2
          -- error_context:
          ⟨-ENOMEM, lttng_ust_destroy_type type s3,
            [(AllocSite.type_descriptor, true), (AllocSite.context_field, true),
             (AllocSite.name_string, false)]⟩
        | some name =>
          let s3 := { s2 with fields := s2.fields.modify (vgid_fill name type) field }
          let s4 := lttng_context_update s3
          ⟨0, s4,
            [(AllocSite.type_descriptor, true), (AllocSite.context_field, true),
             (AllocSite.name_string, true)]⟩

/-- The "vgid" field in full: the name, the integer type built from `gid_t`
with the arguments `lttng_add_vgid_to_ctx` passes, and the three vgid callbacks. -/
def vgid_field (tgt : Target) : lttng_ust_ctx_field :=
  { name := some "vgid"
    type := some (lttng_ust_type_common.integer (sizeof_gid_t * CHAR_BIT)
      (tgt.rb_alignof_gid_t * CHAR_BIT) false tgt.BYTE_ORDER 10)
    get_size := some FnPtr.vgid_get_size
    record := some FnPtr.vgid_record
    get_value := some FnPtr.vgid_get_value }

/-! ## The vgid callbacks (`lttng-context-vgid.c`) -/

/-- Modelled from the spec: `lttng_ust_lib_ring_buffer_align` is not part of the
sources. The spec lists it as the alignment primitive of the ring-buffer
backend, and its worked example (a 4-byte field aligned on 8 bytes at offset 5
has size 7) fixes what the size callback adds to `sizeof`: the number of
padding bytes that brings `align_drift` up to the next multiple of `alignment`. -/
def lttng_ust_lib_ring_buffer_align (align_drift alignment : Nat) : Nat :=
  (alignment - align_drift % alignment) % alignment

/-- `vgid_get_size(field, offset)`; the `field` argument is not used by the C
function. -/
def vgid_get_size (tgt : Target) (offset : Nat) : Nat :=
  let size := 0
  let size := size + lttng_ust_lib_ring_buffer_align offset tgt.rb_alignof_gid_t
  let size := size + sizeof_gid_t
  size

/-- The part of `struct lttng_ust_lib_ring_buffer_ctx` that a write touches:
the current offset in the buffer, and the writes made so far, each as the
offset of its first byte and the bytes written. -/
structure lttng_ust_lib_ring_buffer_ctx where
  buf_offset : Nat
  written : List (Nat × List Nat)
  deriving DecidableEq, Repr

/-- Modelled from the spec: `chan->ops->event_write` belongs to the ring-buffer
backend and is not part of the sources. `event_write(ctx, src, len, alignment)`
pads the current offset up to `alignment`, writes the first `len` bytes of `src`
there and leaves the offset after them. -/
def event_write (ctx : lttng_ust_lib_ring_buffer_ctx) (src : List Nat) (len alignment : Nat) :
    lttng_ust_lib_ring_buffer_ctx :=
  let start := ctx.buf_offset + lttng_ust_lib_ring_buffer_align ctx.buf_offset alignment
  { buf_offset := start + len, written := ctx.written ++ [(start, src.take len)] }

/-- The four bytes that hold a `gid_t` in memory, lowest address first. -/
def gid_t_bytes (byte_order : ByteOrder) (v : Nat) : List Nat :=
  match byte_order with
  | ByteOrder.LITTLE_ENDIAN =>
    [v % 256, v / 256 % 256, v / 65536 % 256, v / 16777216 % 256]
  | ByteOrder.BIG_ENDIAN =>
    [v / 16777216 % 256, v / 65536 % 256, v / 256 % 256, v % 256]

/-- The `gid_t` that four bytes of memory hold. -/
def gid_t_of_bytes (byte_order : ByteOrder) (bytes : List Nat) : Nat :=
  match byte_order, bytes with
  | ByteOrder.LITTLE_ENDIAN, [b0, b1, b2, b3] => b0 + 256 * b1 + 65536 * b2 + 16777216 * b3
  | ByteOrder.BIG_ENDIAN, [b0, b1, b2, b3] => b3 + 256 * b2 + 65536 * b1 + 16777216 * b0
  | _, _ => 0

/-- `vgid_record(field, ctx, chan)`: `vgid = get_vgid();` then
`chan->ops->event_write(ctx, &vgid, sizeof(vgid), lttng_ust_rb_alignof(vgid))`. -/
def vgid_record (tgt : Target) (getgid : Nat) (s : VgidState)
    (ctx : lttng_ust_lib_ring_buffer_ctx) : VgidState × lttng_ust_lib_ring_buffer_ctx :=
  let r := get_vgid getgid s
  let vgid := r.1
  (r.2, event_write ctx (gid_t_bytes tgt.BYTE_ORDER vgid) sizeof_gid_t tgt.rb_alignof_gid_t)

/-- Conversion of an integer value to `int64_t`: the value is kept when it is
in range, and wraps modulo `2^64` otherwise. -/
def int64_t_cast (x : Int) : Int := (x + 2 ^ 63) % 2 ^ 64 - 2 ^ 63

/-- The member of `struct lttng_ust_ctx_value` that `vgid_get_value` assigns. -/
structure lttng_ust_ctx_value where
  s64 : Int
  deriving DecidableEq, Repr

/-- `vgid_get_value(field, value)`: `value->u.s64 = get_vgid();`. The `gid_t`
result is converted to the `int64_t` member. -/
def vgid_get_value (getgid : Nat) (s : VgidState) (value : lttng_ust_ctx_value) :
    VgidState × lttng_ust_ctx_value :=
  let r := get_vgid getgid s
  (r.2, { value with s64 := int64_t_cast (Int.ofNat r.1) })

/-! ## Application context names (`ust-core.c`) -/

/-- `strlen` of a C string given by its characters (the terminator is not part
of the list). -/
def strlen (s : List Char) : Nat := s.length

/-- `strncmp(a, b, n)` on C strings given by their characters: at most `n`
characters are compared, the end of a list stands for the terminating NUL. The
result is zero when no difference is found, and the difference of the first
two characters that differ otherwise. -/
def strncmp : List Char → List Char → Nat → Int
  | _, _, 0 => 0
  | [], [], _ + 1 => 0
  | [], b :: _, _ + 1 => 0 - Int.ofNat b.toNat
  | a :: _, [], _ + 1 => Int.ofNat a.toNat
  | a :: as, b :: bs, n + 1 =>
    if a = b then strncmp as bs n else Int.ofNat a.toNat - Int.ofNat b.toNat

/-- `lttng_context_is_app(name)`. The name is given by its characters; `$app.`
is plain ASCII, so comparing characters and comparing bytes agree. -/
def lttng_context_is_app (name : String) : Int :=
  if strncmp name.data "$app.".data (strlen "$app.".data) ≠ 0 then
    0
  else
    1

/-! ## Enum descriptor table (`ust-core.c`) -/

/-- Modelled from the spec: the header that defines
`enum lttng_ust_channel_type` is not part of the sources. The spec has a single
kind today, the buffer-backed one; it is the first enumerator. -/
def LTTNG_UST_CHANNEL_TYPE_BUFFER : Nat := 0

/-- The `sizeof` of the three structures, fixed by headers that are not part of
the sources. -/
structure Sizes where
  sizeof_channel_buffer : Nat
  sizeof_channel_common : Nat
  sizeof_channel_buffer_private : Nat
  deriving DecidableEq, Repr

/-- The members of `struct lttng_ust_channel_buffer` that `ust-core.c` uses. -/
structure lttng_ust_channel_buffer where
  struct_size : Nat
  parent : Option Ptr
  priv : Option Ptr
  deriving DecidableEq, Repr

/-- The members of `struct lttng_ust_channel_common` that `ust-core.c` uses.
`priv` points to the `parent` member of a private block: it holds the address
of that block. -/
structure lttng_ust_channel_common where
  struct_size : Nat
  type : Nat
  child : Option Ptr
  priv : Option Ptr
  deriving DecidableEq, Repr

/-- The member `parent` of the private block (`struct
lttng_ust_channel_common_private`), of which `ust-core.c` uses `pub`. -/
structure lttng_ust_channel_common_private where
  pub : Option Ptr
  deriving DecidableEq, Repr

/-- Modelled from the spec: the declaration of
`struct lttng_ust_channel_buffer_private` is not part of the sources. The
members `parent` and `pub` are the ones `ust-core.c` assigns; `struct_size` is
the recorded size field that the spec gives to each allocated struct. -/
structure lttng_ust_channel_buffer_private where
  struct_size : Nat
  parent : lttng_ust_channel_common_private
  pub : Option Ptr
  deriving DecidableEq, Repr

/-- The heap: the addresses of the blocks that are allocated and not freed,
the addresses passed to `free` so far (the latest first), and the contents of
memory read as each of the three structures. A block holds one structure, so
each structure type has a memory of its own. -/
structure Heap where
  live : List Ptr
  frees : List Ptr
  chan_buf : Ptr → lttng_ust_channel_buffer
  chan_common : Ptr → lttng_ust_channel_common
  chan_buf_priv : Ptr → lttng_ust_channel_buffer_private

/-- A heap with no block allocated, nothing freed and zero-filled memory. -/
def Heap.empty : Heap :=
  { live := []
    frees := []
    chan_buf := fun _ => ⟨0, none, none⟩
    chan_common := fun _ => ⟨0, 0, none, none⟩
    chan_buf_priv := fun _ => ⟨0, ⟨none⟩, none⟩ }

/-- How a call ends: it returns a value and leaves a heap, or the process is
terminated by `abort()` with the heap as it was at that point, or it runs into
undefined behaviour (a `NULL` dereference, the `free` of a block that is not
allocated). -/
inductive Outcome (α : Type) where
  | returned (a : α) (h : Heap)
  | aborted (h : Heap)
  | undefined

/-- What `zmalloc` returns at each of the three calls of
`lttng_ust_alloc_channel_buffer`, should the call be reached: the address of a
new block, or `none` for `NULL`. -/
structure ZmallocResults where
  chan_buf : Option Ptr
  chan_common : Option Ptr
  chan_buf_priv : Option Ptr
  deriving DecidableEq, Repr

/-- A successful `zmalloc(sizeof(struct lttng_ust_channel_buffer))` returning
`a`: the block is live and zero-filled. -/
def zmalloc_chan_buf (a : Ptr) (h : Heap) : Heap :=
  { h with live := a :: h.live, chan_buf := Function.update h.chan_buf a ⟨0, none, none⟩ }

/-- A successful `zmalloc(sizeof(struct lttng_ust_channel_common))`. -/
def zmalloc_chan_common (a : Ptr) (h : Heap) : Heap :=
  { h with
    live := a :: h.live
    chan_common := Function.update h.chan_common a ⟨0, 0, none, none⟩ }

/-- A successful `zmalloc(sizeof(struct lttng_ust_channel_buffer_private))`. -/
def zmalloc_chan_buf_priv (a : Ptr) (h : Heap) : Heap :=
  { h with
    live := a :: h.live
    chan_buf_priv := Function.update h.chan_buf_priv a ⟨0, ⟨none⟩, none⟩ }

/-- `free(p)`: nothing for `NULL`; a live block is released and the call is
recorded; anything else is undefined behaviour (`none`). -/
def free (p : Option Ptr) (h : Heap) : Option Heap :=
  match p with
  | none => some h
  | some a =>
    if a ∈ h.live then some { h with live := h.live.erase a, frees := a :: h.frees }
    else none

/-- `lttng_ust_alloc_channel_buffer()`. The labels of the C function are kept
as comments. The result is the returned pointer (`none` for `NULL`). -/
def lttng_ust_alloc_channel_buffer (sz : Sizes) (m : ZmallocResults) (h : Heap) :
    Outcome (Option Ptr) :=
  match m.chan_buf with
  | none =>
    -- lttng_chan_buf_error:
    Outcome.returned none h
  | some lttng_chan_buf =>
    let h := zmalloc_chan_buf lttng_chan_buf h
    let h := { h with
      chan_buf := Function.update h.chan_buf lttng_chan_buf
        { h.chan_buf lttng_chan_buf with struct_size := sz.sizeof_channel_buffer } }
    match m.chan_common with
    | none =>
      -- lttng_chan_common_error:
      match free (some lttng_chan_buf) h with
      | none => Outcome.undefined
      | some h => Outcome.returned none h
    | some lttng_chan_common =>
      let h := zmalloc_chan_common lttng_chan_common h
      let h := { h with
        chan_common := Function.update h.chan_common lttng_chan_common
          { h.chan_common lttng_chan_common with struct_size := sz.sizeof_channel_common } }
      match m.chan_buf_priv with
      | none =>
        -- lttng_chan_buf_priv_error:
        match free (some lttng_chan_common) h with
        | none => Outcome.undefined
        | some h =>
          -- lttng_chan_common_error:
          match free (some lttng_chan_buf) h with
          | none => Outcome.undefined
          | some h => Outcome.returned none h
      | some lttng_chan_buf_priv =>
        let h := zmalloc_chan_buf_priv lttng_chan_buf_priv h
        let h := { h with
          chan_buf := Function.update h.chan_buf lttng_chan_buf
            { h.chan_buf lttng_chan_buf with parent := some lttng_chan_common } }
        let h := { h with
          chan_common := Function.update h.chan_common lttng_chan_common
            { h.chan_common lttng_chan_common with type := LTTNG_UST_CHANNEL_TYPE_BUFFER } }
        let h := { h with
          chan_common := Function.update h.chan_common lttng_chan_common
            { h.chan_common lttng_chan_common with child := some lttng_chan_buf } }
        let h := { h with
          chan_buf := Function.update h.chan_buf lttng_chan_buf
            { h.chan_buf lttng_chan_buf with priv := some lttng_chan_buf_priv } }
        let h := { h with
          chan_common := Function.update h.chan_common lttng_chan_common
            { h.chan_common lttng_chan_common with priv := some lttng_chan_buf_priv } }
        let h := { h with
          chan_buf_priv := Function.update h.chan_buf_priv lttng_chan_buf_priv
            { h.chan_buf_priv lttng_chan_buf_priv with pub := some lttng_chan_buf } }
        let h := { h with
          chan_buf_priv := Function.update h.chan_buf_priv lttng_chan_buf_priv
            { h.chan_buf_priv lttng_chan_buf_priv with
              parent := { pub := some lttng_chan_common } } }
        Outcome.returned (some lttng_chan_buf) h

/-- `lttng_ust_free_channel_common(chan)`. -/
def lttng_ust_free_channel_common (chan : Ptr) (h : Heap) : Outcome Unit :=
  if (h.chan_common chan).type = LTTNG_UST_CHANNEL_TYPE_BUFFER then
    match (h.chan_common chan).child with
    | none => Outcome.undefined
    | some chan_buf =>
      match free (h.chan_buf chan_buf).parent h with
      | none => Outcome.undefined
      | some h1 =>
        match free (h1.chan_buf chan_buf).priv h1 with
        | none => Outcome.undefined
        | some h2 =>
          match free (some chan_buf) h2 with
          | none => Outcome.undefined
          | some h3 => Outcome.returned () h3
  else
    Outcome.aborted h

/-! ## `get_vgid` line by line, for several threads (`lttng-context-vgid.c`) -/

/-- Where a thread stands inside `get_vgid()`, named by the source line it runs
next, together with the value of its local variable `vgid` where that value
matters. -/
inductive VgidPc where
  | line46
  | line48 (vgid : Nat)
  | line49
  | line50 (vgid : Nat)
  | returned (vgid : Nat)
  deriving DecidableEq, Repr

/-- One line of `get_vgid()` run by one thread on the shared cell:
* line 46, `vgid = CMM_LOAD_SHARED(cached_vgid);`
* line 48, `if (caa_unlikely(cached_vgid == (gid_t) -1))`, which reads the cell
  again;
* line 49, `vgid = getgid();`
* line 50, `CMM_STORE_SHARED(cached_vgid, vgid);`, followed by `return vgid;`.
When the test of line 48 fails the thread goes to `return vgid;`. -/
def get_vgid_step (getgid : Nat) (pc : VgidPc) (s : VgidState) : VgidPc × VgidState :=
  match pc with
  | VgidPc.line46 => (VgidPc.line48 s.cached_vgid, s)
  | VgidPc.line48 vgid =>
    if s.cached_vgid = gid_t_cast (-1) then (VgidPc.line49, s)
    else (VgidPc.returned vgid, s)
  | VgidPc.line49 => (VgidPc.line50 getgid, { s with getgid_calls := s.getgid_calls + 1 })
  | VgidPc.line50 vgid => (VgidPc.returned vgid, { s with cached_vgid := vgid })
  | VgidPc.returned vgid => (VgidPc.returned vgid, s)

/-- One thread running `get_vgid()` from its first line to its return with no
other thread in between: at most four lines. -/
def get_vgid_alone (getgid : Nat) (s : VgidState) : VgidPc × VgidState :=
  let r1 := get_vgid_step getgid VgidPc.line46 s
  let r2 := get_vgid_step getgid r1.1 r1.2
  let r3 := get_vgid_step getgid r2.1 r2.2
  get_vgid_step getgid r3.1 r3.2

/-- The shared cell and the threads that call `get_vgid()`, each with its
place in the function. -/
structure VgidSystem where
  shared : VgidState
  threads : List VgidPc
  deriving DecidableEq, Repr

/-- What happens next in the process: the reader thread of that index runs its
next line, or the resetting thread runs `lttng_context_vgid_reset()`. -/
inductive VgidEvent where
  | step (thread : Nat)
  | reset
  deriving DecidableEq, Repr

/-- The effect of one event on the system. -/
def vgid_system_step (getgid : Nat) (e : VgidEvent) (sys : VgidSystem) : VgidSystem :=
  match e with
  | VgidEvent.reset => { sys with shared := lttng_context_vgid_reset sys.shared }
  | VgidEvent.step i =>
    match sys.threads[i]? with
    | none => sys
    | some pc =>
      let r := get_vgid_step getgid pc sys.shared
      { shared := r.2, threads := sys.threads.set i r.1 }

/-- An interleaving: the events in the order in which they happen. -/
def vgid_system_run (getgid : Nat) : List VgidEvent → VgidSystem → VgidSystem
  | [], sys => sys
  | e :: es, sys => vgid_system_run getgid es (vgid_system_step getgid e sys)

/-! ### Lemmas on the scan -/

theorem transport_scan_some_iff (tname : Ptr → String) (name : String) (l : List Ptr)
    (t : Ptr) : transport_scan tname name l = some t ↔ FirstNamed tname l name t := by
  induction l with
  | nil =>
    simp [transport_scan, FirstNamed]
  | cons x xs ih =>
    unfold transport_scan
    by_cases hx : tname x = name
    · rw [if_pos hx]
      constructor
      · intro h
        have hxt : x = t := Option.some.inj h
        subst hxt
        exact ⟨[], xs, rfl, hx, by simp⟩
      · rintro ⟨pre, post, hl, _, hpre⟩
        cases pre with
        | nil =>
          simp only [List.nil_append, List.cons.injEq] at hl
          rw [hl.1]
        | cons p ps =>
          simp only [List.cons_append, List.cons.injEq] at hl
          exact absurd (hl.1 ▸ hx) (hpre p (List.mem_cons_self _ _))
    · rw [if_neg hx, ih]
      constructor
      · rintro ⟨pre, post, hl, ht, hpre⟩
        refine ⟨x :: pre, post, by simp [hl], ht, ?_⟩
        intro u hu
        rcases List.mem_cons.mp hu with rfl | hu
        · exact hx
        · exact hpre u hu
      · rintro ⟨pre, post, hl, ht, hpre⟩
        cases pre with
        | nil =>
          simp only [List.nil_append, List.cons.injEq] at hl
          exact absurd (hl.1 ▸ ht) hx
        | cons p ps =>
          simp only [List.cons_append, List.cons.injEq] at hl
          exact ⟨ps, post, hl.2, ht, fun u hu => hpre u (List.mem_cons_of_mem _ hu)⟩

theorem transport_scan_none_iff (tname : Ptr → String) (name : String) (l : List Ptr) :
    transport_scan tname name l = none ↔ ∀ u ∈ l, tname u ≠ name := by
  induction l with
  | nil => simp [transport_scan]
  | cons x xs ih =>
    unfold transport_scan
    by_cases hx : tname x = name
    · simp [hx]
    · simp [hx, ih]

theorem transport_scan_append_of_none (tname : Ptr → String) (name : String)
    (l m : List Ptr) (h : ∀ u ∈ l, tname u ≠ name) :
    transport_scan tname name (l ++ m) = transport_scan tname name m := by
  induction l with
  | nil => rfl
  | cons x xs ih =>
    have hx : tname x ≠ name := h x (List.mem_cons_self _ _)
    simp only [List.cons_append, transport_scan, if_neg hx]
    exact ih (fun u hu => h u (List.mem_cons_of_mem _ hu))

/-! ### Lemmas on unlinking -/

theorem cds_list_del_removedFrom (l : List Ptr) (t : Ptr) (hnd : l.Nodup) (ht : t ∈ l) :
    RemovedFrom l t (cds_list_del t l) := by
  obtain ⟨pre, post, hpre, hl, he⟩ := List.exists_erase_eq ht
  refine ⟨pre, post, hl, he, hpre, ?_⟩
  rw [hl] at hnd
  have h2 := (List.nodup_append.mp hnd).2.1
  exact (List.nodup_cons.mp h2).1

theorem cds_list_del_add_tail (l : List Ptr) (t : Ptr) (ht : t ∉ l) :
    cds_list_del t (cds_list_add_tail t l) = l := by
  unfold cds_list_del cds_list_add_tail
  rw [List.erase_append_right _ ht]
  simp

/-! ### Transport registry: the claims -/

/-- C1. In either registry (buffer or counter), `find(name)` returns a transport
`t` exactly when `t` is the first linked transport, in registration order,
whose name equals `name`; and it returns `NULL` exactly when no linked
transport has that name. -/
theorem find_returns_first_match (tname ctname : Ptr → String) (g : Globals) (name : String) :
    ((∀ t, lttng_ust_transport_find tname g name = some t ↔
        FirstNamed tname g.lttng_transport_list name t) ∧
      (lttng_ust_transport_find tname g name = none ↔
        ∀ u ∈ g.lttng_transport_list, tname u ≠ name)) ∧
    ((∀ t, lttng_counter_transport_find ctname g name = some t ↔
        FirstNamed ctname g.lttng_counter_transport_list name t) ∧
      (lttng_counter_transport_find ctname g name = none ↔
        ∀ u ∈ g.lttng_counter_transport_list, ctname u ≠ name)) :=
  ⟨⟨fun t => transport_scan_some_iff tname name _ t, transport_scan_none_iff tname name _⟩,
    ⟨fun t => transport_scan_some_iff ctname name _ t, transport_scan_none_iff ctname name _⟩⟩

/-- C2. If no registered transport is named `n` and `a`, `b` are two distinct
transports both named `n`, then after `register(a); register(b)` the lookup of
`n` returns `a`, and after a further `unregister(a)` it returns `b`. Stated for
the buffer registry and for the counter registry. -/
theorem find_after_register_unregister (tname ctname : Ptr → String) (g : Globals)
    (n : String) (a b : Ptr) (hab : a ≠ b)
    (ha : tname a = n ∧ ctname a = n) (hb : tname b = n ∧ ctname b = n)
    (hfree : (∀ u ∈ g.lttng_transport_list, tname u ≠ n) ∧
      (∀ u ∈ g.lttng_counter_transport_list, ctname u ≠ n)) :
    (lttng_ust_transport_find tname
        (lttng_transport_register b (lttng_transport_register a g)) n = some a ∧
      lttng_ust_transport_find tname
        (lttng_transport_unregister a
          (lttng_transport_register b (lttng_transport_register a g))) n = some b) ∧
    (lttng_counter_transport_find ctname
        (lttng_counter_transport_register b (lttng_counter_transport_register a g)) n
        = some a ∧
      lttng_counter_transport_find ctname
        (lttng_counter_transport_unregister a
          (lttng_counter_transport_register b (lttng_counter_transport_register a g))) n
        = some b) := by
  have key : ∀ (nm : Ptr → String) (l : List Ptr), nm a = n → nm b = n →
      (∀ u ∈ l, nm u ≠ n) →
      transport_scan nm n (cds_list_add_tail b (cds_list_add_tail a l)) = some a ∧
      transport_scan nm n (cds_list_del a (cds_list_add_tail b (cds_list_add_tail a l)))
        = some b := by
    intro nm l hna hnb hl
    have hal : a ∉ l := fun h => hl a h hna
    have hba : ¬ b = a := fun h => hab h.symm
    constructor
    · simp only [cds_list_add_tail, List.append_assoc]
      rw [transport_scan_append_of_none nm n l _ hl]
      simp [transport_scan, hna]
    · simp only [cds_list_add_tail, cds_list_del, List.append_assoc]
      rw [List.erase_append_right _ hal, transport_scan_append_of_none nm n l _ hl]
      simp [transport_scan, hnb]
  exact ⟨key tname _ ha.1 hb.1 hfree.1, key ctname _ ha.2 hb.2 hfree.2⟩

/-- Witness for C2: two transports at addresses 1 and 2, both named "relay",
registered into a registry that already holds a transport of another name. -/
theorem find_after_register_unregister_witness :
    (lttng_ust_transport_find (fun p => if p = 0 then "metadata" else "relay")
        (lttng_transport_register 2 (lttng_transport_register 1 ⟨[0], [0]⟩)) "relay"
        = some 1 ∧
      lttng_ust_transport_find (fun p => if p = 0 then "metadata" else "relay")
        (lttng_transport_unregister 1
          (lttng_transport_register 2 (lttng_transport_register 1 ⟨[0], [0]⟩))) "relay"
        = some 2) ∧
    (lttng_counter_transport_find (fun p => if p = 0 then "metadata" else "relay")
        (lttng_counter_transport_register 2
          (lttng_counter_transport_register 1 ⟨[0], [0]⟩)) "relay" = some 1 ∧
      lttng_counter_transport_find (fun p => if p = 0 then "metadata" else "relay")
        (lttng_counter_transport_unregister 1
          (lttng_counter_transport_register 2
            (lttng_counter_transport_register 1 ⟨[0], [0]⟩))) "relay" = some 2) :=
  find_after_register_unregister (fun p => if p = 0 then "metadata" else "relay")
    (fun p => if p = 0 then "metadata" else "relay") ⟨[0], [0]⟩ "relay" 1 2 (by decide)
    ⟨by decide, by decide⟩ ⟨by decide, by decide⟩
    ⟨by decide, by decide⟩

/-- C3. In either registry, taken on its own: if every node of the registry is
linked at most once and the transport `t` is registered in it, unregistering
`t` yields the previous list with exactly that node taken out. The list splits
around the node and the result is the two sides joined in their order, the node
is no longer registered, every other transport is registered after iff it was
before (whatever its name: names are not consulted), and the other registry is
untouched. In particular, registering a transport that is not registered and
unregistering it again restores the registry. Nothing is assumed about the
registry that is not operated on. -/
theorem unregister_removes_exactly_that_node (g : Globals) (t : Ptr) :
    (g.lttng_transport_list.Nodup → t ∈ g.lttng_transport_list →
      RemovedFrom g.lttng_transport_list t
        (lttng_transport_unregister t g).lttng_transport_list ∧
      t ∉ (lttng_transport_unregister t g).lttng_transport_list ∧
      (∀ u, u ≠ t →
        (u ∈ (lttng_transport_unregister t g).lttng_transport_list ↔
          u ∈ g.lttng_transport_list)) ∧
      (lttng_transport_unregister t g).lttng_counter_transport_list =
        g.lttng_counter_transport_list) ∧
    (g.lttng_counter_transport_list.Nodup → t ∈ g.lttng_counter_transport_list →
      RemovedFrom g.lttng_counter_transport_list t
        (lttng_counter_transport_unregister t g).lttng_counter_transport_list ∧
      t ∉ (lttng_counter_transport_unregister t g).lttng_counter_transport_list ∧
      (∀ u, u ≠ t →
        (u ∈ (lttng_counter_transport_unregister t g).lttng_counter_transport_list ↔
          u ∈ g.lttng_counter_transport_list)) ∧
      (lttng_counter_transport_unregister t g).lttng_transport_list =
        g.lttng_transport_list) ∧
    (t ∉ g.lttng_transport_list →
      lttng_transport_unregister t (lttng_transport_register t g) = g) ∧
    (t ∉ g.lttng_counter_transport_list →
      lttng_counter_transport_unregister t (lttng_counter_transport_register t g) = g) := by
  have key : ∀ (l : List Ptr) (x : Ptr), l.Nodup → x ∈ l →
      RemovedFrom l x (cds_list_del x l) ∧ x ∉ cds_list_del x l ∧
      (∀ u, u ≠ x → (u ∈ cds_list_del x l ↔ u ∈ l)) := by
    intro l x hl hx
    refine ⟨cds_list_del_removedFrom l x hl hx, ?_, ?_⟩
    · unfold cds_list_del
      exact fun h => ((List.Nodup.mem_erase_iff hl).mp h).1 rfl
    · intro u hu
      unfold cds_list_del
      exact List.mem_erase_of_ne hu
  refine ⟨?_, ?_, ?_, ?_⟩
  · intro hnd ht
    obtain ⟨k1, k2, k3⟩ := key _ t hnd ht
    exact ⟨k1, k2, k3, rfl⟩
  · intro hnd ht
    obtain ⟨k1, k2, k3⟩ := key _ t hnd ht
    exact ⟨k1, k2, k3, rfl⟩
  · intro hu
    cases g with
    | mk l m =>
      simp only [lttng_transport_unregister, lttng_transport_register]
      rw [cds_list_del_add_tail l t hu]
  · intro hu
    cases g with
    | mk l m =>
      simp only [lttng_counter_transport_unregister, lttng_counter_transport_register]
      rw [cds_list_del_add_tail m t hu]

/-- Witness for C3: node 2 is unregistered from the buffer registry 1, 2, 3
while the counter registry is empty; node 4 is unregistered from the counter
registry 4, 5 while the buffer registry is empty; and from the initial state,
where both registries are empty, transport 7 is registered and unregistered
again in each registry. -/
theorem unregister_removes_exactly_that_node_witness :
    ((lttng_transport_unregister 2 ⟨[1, 2, 3], []⟩).lttng_transport_list = [1, 3] ∧
      RemovedFrom [1, 2, 3] 2 (lttng_transport_unregister 2 ⟨[1, 2, 3], []⟩).lttng_transport_list ∧
      2 ∉ (lttng_transport_unregister 2 ⟨[1, 2, 3], []⟩).lttng_transport_list) ∧
    ((lttng_counter_transport_unregister 4 ⟨[], [4, 5]⟩).lttng_counter_transport_list = [5] ∧
      RemovedFrom [4, 5] 4
        (lttng_counter_transport_unregister 4 ⟨[], [4, 5]⟩).lttng_counter_transport_list) ∧
    lttng_transport_unregister 7 (lttng_transport_register 7 Globals.init) = Globals.init ∧
    lttng_counter_transport_unregister 7 (lttng_counter_transport_register 7 Globals.init)
      = Globals.init :=
  have hb := (unregister_removes_exactly_that_node ⟨[1, 2, 3], []⟩ 2).1 (by decide) (by decide)
  have hc := (unregister_removes_exactly_that_node ⟨[], [4, 5]⟩ 4).2.1 (by decide) (by decide)
  have hi := unregister_removes_exactly_that_node Globals.init 7
  ⟨⟨by decide, hb.1, hb.2.1⟩, ⟨by decide, hc.1⟩,
    hi.2.2.1 (by decide), hi.2.2.2 (by decide)⟩

/-! ### Virtual group id cache: lemmas and claims -/

theorem INVALID_GID_eq : INVALID_GID = 4294967295 := by
  unfold INVALID_GID gid_t_cast
  decide

theorem get_vgid_miss (g : Nat) (s : VgidState) (h : s.cached_vgid = INVALID_GID) :
    get_vgid g s = (g, ⟨g, s.getgid_calls + 1⟩) := by
  unfold get_vgid
  rw [if_pos (by rw [h]; rfl)]

theorem get_vgid_hit (g : Nat) (s : VgidState) (h : s.cached_vgid ≠ INVALID_GID) :
    get_vgid g s = (s.cached_vgid, s) := by
  unfold get_vgid
  rw [if_neg (by intro h'; exact h (by rw [h']; rfl))]

theorem get_vgid_seq_hit (gs : List Nat) (s : VgidState) (h : s.cached_vgid ≠ INVALID_GID) :
    get_vgid_seq gs s = (List.replicate gs.length s.cached_vgid, s) := by
  induction gs with
  | nil => rfl
  | cons g gs ih =>
    simp only [get_vgid_seq, get_vgid_hit g s h, ih, List.length_cons, List.replicate_succ]

/-- What `get_vgid` does should `getgid()` ever report the sentinel itself: the
cell keeps the sentinel, so the following call queries the system again. -/
theorem get_vgid_requeries_on_sentinel (s : VgidState) (g : Nat)
    (h : s.cached_vgid = INVALID_GID) :
    (get_vgid g (get_vgid INVALID_GID s).2).2.getgid_calls = s.getgid_calls + 2 := by
  rw [get_vgid_miss _ s h, get_vgid_miss _ _ rfl]

/-- C4. For every value `c` of the cache cell and every value `g` that
`getgid()` would return: if `c` is the invalid sentinel, `get_vgid` performs the
query (one more system call), stores `g` in the cell and returns `g`; otherwise
it performs no query, leaves the state unchanged and returns `c`. -/
theorem get_vgid_contract (c g calls : Nat) :
    (c = INVALID_GID →
      (get_vgid g ⟨c, calls⟩).1 = g ∧
      (get_vgid g ⟨c, calls⟩).2.cached_vgid = g ∧
      (get_vgid g ⟨c, calls⟩).2.getgid_calls = calls + 1) ∧
    (c ≠ INVALID_GID →
      (get_vgid g ⟨c, calls⟩).1 = c ∧
      (get_vgid g ⟨c, calls⟩).2.cached_vgid = c ∧
      (get_vgid g ⟨c, calls⟩).2.getgid_calls = calls) := by
  constructor
  · intro h
    rw [get_vgid_miss g ⟨c, calls⟩ h]
    exact ⟨rfl, rfl, rfl⟩
  · intro h
    rw [get_vgid_hit g ⟨c, calls⟩ h]
    exact ⟨rfl, rfl, rfl⟩

/-- C5. Whatever the cache held, `lttng_context_vgid_reset` leaves the cell
equal to the invalid sentinel; the next `get_vgid` then performs the query
(one more system call), returns what `getgid()` returns at that moment and
stores it, so a previously cached value that differs is not returned. The very
first read from the initial state likewise performs the query and returns its
result. -/
theorem reset_forces_fresh_query (s : VgidState) (g : Nat) :
    (lttng_context_vgid_reset s).cached_vgid = INVALID_GID ∧
    (lttng_context_vgid_reset s).getgid_calls = s.getgid_calls ∧
    get_vgid g (lttng_context_vgid_reset s) = (g, ⟨g, s.getgid_calls + 1⟩) ∧
    (s.cached_vgid ≠ g → (get_vgid g (lttng_context_vgid_reset s)).1 ≠ s.cached_vgid) ∧
    get_vgid g VgidState.init = (g, ⟨g, 1⟩) := by
  have h1 : get_vgid g (lttng_context_vgid_reset s) = (g, ⟨g, s.getgid_calls + 1⟩) :=
    get_vgid_miss g (lttng_context_vgid_reset s) rfl
  refine ⟨rfl, rfl, h1, ?_, get_vgid_miss g VgidState.init rfl⟩
  intro hne
  rw [h1]
  exact fun h => hne h.symm

/-- C6. Let `g0` be the group id the system reports, one that is not the
invalid sentinel `(gid_t) -1`. Once `get_vgid` has been called, every later
`get_vgid` with no reset in between returns the value the first call returned
and performs no system call: the state, including the count of `getgid()`
calls, is the one the first call left, whatever `getgid()` would report later. -/
theorem get_vgid_cached_after_first_call (s : VgidState) (g0 : Nat) (gs : List Nat)
    (hg0 : g0 ≠ INVALID_GID) :
    (get_vgid_seq gs (get_vgid g0 s).2).1 = List.replicate gs.length (get_vgid g0 s).1 ∧
    (get_vgid_seq gs (get_vgid g0 s).2).2 = (get_vgid g0 s).2 ∧
    (get_vgid_seq gs (get_vgid g0 s).2).2.getgid_calls = (get_vgid g0 s).2.getgid_calls := by
  have hcell : (get_vgid g0 s).2.cached_vgid ≠ INVALID_GID ∧
      (get_vgid g0 s).2.cached_vgid = (get_vgid g0 s).1 := by
    by_cases h : s.cached_vgid = INVALID_GID
    · rw [get_vgid_miss g0 s h]
      exact ⟨hg0, rfl⟩
    · rw [get_vgid_hit g0 s h]
      exact ⟨h, rfl⟩
  rw [get_vgid_seq_hit gs _ hcell.1, hcell.2]
  exact ⟨rfl, rfl, rfl⟩

/-- Witness for C6: from the initial state the system reports gid 1000; three
later reads, during which `getgid()` would report 7, 8 and 9, all return 1000
and the count of system calls stays at one. -/
theorem get_vgid_cached_after_first_call_witness :
    (get_vgid_seq [7, 8, 9] (get_vgid 1000 VgidState.init).2).1 = [1000, 1000, 1000] ∧
    (get_vgid_seq [7, 8, 9] (get_vgid 1000 VgidState.init).2).2.getgid_calls = 1 := by
  have h := get_vgid_cached_after_first_call VgidState.init 1000 [7, 8, 9]
    (by rw [INVALID_GID_eq]; decide)
  have h0 : get_vgid 1000 VgidState.init = (1000, ⟨1000, 1⟩) :=
    get_vgid_miss 1000 VgidState.init rfl
  rw [h0] at h
  exact ⟨h.1, h.2.2⟩

/-! ### The "vgid" context field: lemmas -/

theorem lttng_find_context_iff (name : String) (l : List lttng_ust_ctx_field) :
    lttng_find_context name l = true ↔ ∃ f ∈ l, f.name = some name := by
  induction l with
  | nil => simp [lttng_find_context]
  | cons x xs ih =>
    unfold lttng_find_context
    by_cases hx : x.name = some name
    · simp [hx]
    · simp [hx, ih]

theorem lttng_find_context_append_blank (name : String) (l : List lttng_ust_ctx_field) :
    lttng_find_context name (l ++ [lttng_ust_ctx_field.blank]) = lttng_find_context name l := by
  induction l with
  | nil => simp [lttng_find_context, lttng_ust_ctx_field.blank]
  | cons x xs ih =>
    rw [List.cons_append]
    unfold lttng_find_context
    rw [ih]

theorem eraseIdx_length_append {α : Type} (l : List α) (x : α) :
    (l ++ [x]).eraseIdx l.length = l := by
  induction l with
  | nil => rfl
  | cons y ys ih => simp only [List.cons_append, List.length_cons, List.eraseIdx_cons_succ, ih]

theorem modify_length_append {α : Type} (f : α → α) (l : List α) (x : α) :
    (l ++ [x]).modify f l.length = l ++ [f x] := by
  induction l with
  | nil => rfl
  | cons y ys ih => simp only [List.cons_append, List.length_cons, List.modify_succ_cons, ih]

/-- Path 1: the type descriptor cannot be created. -/
theorem add_vgid_type_fails (tgt : Target) (o : AllocOutcomes) (s : CtxState)
    (h1 : o.type_ok = false) :
    lttng_add_vgid_to_ctx tgt o s = ⟨-ENOMEM, s, [(AllocSite.type_descriptor, false)]⟩ := by
  simp [lttng_add_vgid_to_ctx, lttng_ust_create_type_integer, h1]

/-- Path 2: the context field cannot be appended. -/
theorem add_vgid_append_fails (tgt : Target) (o : AllocOutcomes) (s : CtxState)
    (h1 : o.type_ok = true) (h2 : o.append_ok = false) :
    lttng_add_vgid_to_ctx tgt o s =
      ⟨-ENOMEM, s, [(AllocSite.type_descriptor, true), (AllocSite.context_field, false)]⟩ := by
  simp [lttng_add_vgid_to_ctx, lttng_ust_create_type_integer, lttng_append_context,
    lttng_ust_destroy_type, h1, h2]

/-- Path 3: a field named "vgid" is already in the list. -/
theorem add_vgid_duplicate (tgt : Target) (o : AllocOutcomes) (s : CtxState)
    (h1 : o.type_ok = true) (h2 : o.append_ok = true)
    (h3 : lttng_find_context "vgid" s.fields = true) :
    lttng_add_vgid_to_ctx tgt o s =
      ⟨-EEXIST, s, [(AllocSite.type_descriptor, true), (AllocSite.context_field, true)]⟩ := by
  simp [lttng_add_vgid_to_ctx, lttng_ust_create_type_integer, lttng_append_context,
    lttng_ust_destroy_type, lttng_remove_context_field, lttng_find_context_append_blank,
    eraseIdx_length_append, h1, h2, h3]

/-- Path 4: the name string cannot be duplicated. -/
theorem add_vgid_strdup_fails (tgt : Target) (o : AllocOutcomes) (s : CtxState)
    (h1 : o.type_ok = true) (h2 : o.append_ok = true)
    (h3 : lttng_find_context "vgid" s.fields = false) (h4 : o.strdup_ok = false) :
    lttng_add_vgid_to_ctx tgt o s =
      ⟨-ENOMEM, s, [(AllocSite.type_descriptor, true), (AllocSite.context_field, true),
        (AllocSite.name_string, false)]⟩ := by
  simp [lttng_add_vgid_to_ctx, lttng_ust_create_type_integer, lttng_append_context,
    lttng_ust_destroy_type, lttng_remove_context_field, lttng_find_context_append_blank,
    eraseIdx_length_append, strdup, h1, h2, h3, h4]

/-- Path 5: success. -/
theorem add_vgid_succeeds (tgt : Target) (o : AllocOutcomes) (s : CtxState)
    (h1 : o.type_ok = true) (h2 : o.append_ok = true)
    (h3 : lttng_find_context "vgid" s.fields = false) (h4 : o.strdup_ok = true) :
    lttng_add_vgid_to_ctx tgt o s =
      ⟨0,
        { fields := s.fields ++ [vgid_field tgt]
          live_types := lttng_ust_type_common.integer (sizeof_gid_t * CHAR_BIT)
            (tgt.rb_alignof_gid_t * CHAR_BIT) false tgt.BYTE_ORDER 10 :: s.live_types
          updates := s.updates + 1 },
        [(AllocSite.type_descriptor, true), (AllocSite.context_field, true),
          (AllocSite.name_string, true)]⟩ := by
  simp only [lttng_add_vgid_to_ctx, lttng_ust_create_type_integer, lttng_append_context,
    lttng_context_update, lttng_find_context_append_blank, modify_length_append, strdup,
    h1, h2, h3, h4, if_true]
  simp [vgid_fill, vgid_field, lttng_ust_ctx_field.blank]

/-- Which allocation of a call failed, read off the record of allocations: the
first one; or the second after the first succeeded; or the third, which is only
made when the first two succeeded and no field is named "vgid". -/
theorem add_vgid_alloc_failure_iff (tgt : Target) (o : AllocOutcomes) (s : CtxState) :
    (∃ site, (site, false) ∈ (lttng_add_vgid_to_ctx tgt o s).allocs) ↔
      (o.type_ok = false ∨ (o.type_ok = true ∧ o.append_ok = false) ∨
        (o.type_ok = true ∧ o.append_ok = true ∧
          lttng_find_context "vgid" s.fields = false ∧ o.strdup_ok = false)) := by
  cases h1 : o.type_ok with
  | false =>
    rw [add_vgid_type_fails tgt o s h1]
    simp
  | true =>
    cases h2 : o.append_ok with
    | false =>
      rw [add_vgid_append_fails tgt o s h1 h2]
      simp
    | true =>
      cases h3 : lttng_find_context "vgid" s.fields with
      | true =>
        rw [add_vgid_duplicate tgt o s h1 h2 h3]
        simp
      | false =>
        cases h4 : o.strdup_ok with
        | false =>
          rw [add_vgid_strdup_fails tgt o s h1 h2 h3 h4]
          simp
        | true =>
          rw [add_vgid_succeeds tgt o s h1 h2 h3 h4]
          simp

/-! ### The "vgid" context field: the claims -/

/-- C7, as stated, fails: the list holds a field named "vgid", the type
descriptor is created, the append of the new field fails, and the call returns
`-ENOMEM`, not `-EEXIST`. -/
theorem add_vgid_duplicate_returns_enomem_when_append_fails :
    lttng_find_context "vgid" [vgid_field ⟨4, ByteOrder.LITTLE_ENDIAN⟩] = true ∧
    (lttng_add_vgid_to_ctx ⟨4, ByteOrder.LITTLE_ENDIAN⟩ ⟨true, false, true⟩
      ⟨[vgid_field ⟨4, ByteOrder.LITTLE_ENDIAN⟩], [], 1⟩).ret = -ENOMEM ∧
    (lttng_add_vgid_to_ctx ⟨4, ByteOrder.LITTLE_ENDIAN⟩ ⟨true, false, true⟩
      ⟨[vgid_field ⟨4, ByteOrder.LITTLE_ENDIAN⟩], [], 1⟩).ret ≠ -EEXIST := by
  refine ⟨by decide, ?_, ?_⟩
  · rw [add_vgid_append_fails _ _ _ rfl rfl]
  · rw [add_vgid_append_fails _ _ _ rfl rfl]
    decide

/-- C7, amended. When `lttng_add_vgid_to_ctx` is called on a context list that
already contains a field named "vgid": the state after the call is the state
before it (same fields in the same order, no type descriptor left allocated by
the call, no update notification); the call returns `-EEXIST` if the type
descriptor and the new context field were both allocated, in which case both
were released again, and `-ENOMEM` if one of these two allocations failed. -/
theorem add_vgid_on_duplicate (tgt : Target) (o : AllocOutcomes) (s : CtxState)
    (hdup : lttng_find_context "vgid" s.fields = true) :
    (lttng_add_vgid_to_ctx tgt o s).state = s ∧
    (o.type_ok = true ∧ o.append_ok = true →
      (lttng_add_vgid_to_ctx tgt o s).ret = -EEXIST ∧
      (lttng_add_vgid_to_ctx tgt o s).allocs =
        [(AllocSite.type_descriptor, true), (AllocSite.context_field, true)]) ∧
    (o.type_ok = false ∨ o.append_ok = false →
      (lttng_add_vgid_to_ctx tgt o s).ret = -ENOMEM) := by
  cases h1 : o.type_ok with
  | false =>
    rw [add_vgid_type_fails tgt o s h1]
    simp
  | true =>
    cases h2 : o.append_ok with
    | false =>
      rw [add_vgid_append_fails tgt o s h1 h2]
      simp
    | true =>
      rw [add_vgid_duplicate tgt o s h1 h2 hdup]
      simp

/-- Witness for the amended C7: a list of two fields, the second named "vgid",
with every allocation succeeding: `-EEXIST` and the state is unchanged. -/
theorem add_vgid_on_duplicate_witness :
    (lttng_add_vgid_to_ctx ⟨4, ByteOrder.LITTLE_ENDIAN⟩ ⟨true, true, true⟩
      ⟨[⟨some "vpid", none, none, none, none⟩, vgid_field ⟨4, ByteOrder.LITTLE_ENDIAN⟩],
        [], 2⟩).state =
      ⟨[⟨some "vpid", none, none, none, none⟩, vgid_field ⟨4, ByteOrder.LITTLE_ENDIAN⟩],
        [], 2⟩ ∧
    (lttng_add_vgid_to_ctx ⟨4, ByteOrder.LITTLE_ENDIAN⟩ ⟨true, true, true⟩
      ⟨[⟨some "vpid", none, none, none, none⟩, vgid_field ⟨4, ByteOrder.LITTLE_ENDIAN⟩],
        [], 2⟩).ret = -EEXIST :=
  have h := add_vgid_on_duplicate ⟨4, ByteOrder.LITTLE_ENDIAN⟩ ⟨true, true, true⟩
    ⟨[⟨some "vpid", none, none, none, none⟩, vgid_field ⟨4, ByteOrder.LITTLE_ENDIAN⟩], [], 2⟩
    (by decide)
  ⟨h.1, (h.2.1 ⟨rfl, rfl⟩).1⟩

/-- C8. When `lttng_add_vgid_to_ctx` returns 0, the list it was called on had
no field named "vgid", and the resulting list is the previous list, unchanged
and in the same order, followed by exactly one new last field: its name is
"vgid", its type is the integer type built for `gid_t` (32 bits, the ring
buffer alignment of `gid_t` in bits, unsigned, the target byte order, base 10)
and its size, record and value callbacks are the vgid ones. The name "vgid"
then appears exactly once in the list, and exactly one context update
notification was issued. -/
theorem add_vgid_success_appends_one_field (tgt : Target) (o : AllocOutcomes) (s : CtxState)
    (hret : (lttng_add_vgid_to_ctx tgt o s).ret = 0) :
    lttng_find_context "vgid" s.fields = false ∧
    (lttng_add_vgid_to_ctx tgt o s).state.fields =
      s.fields ++ [⟨some "vgid",
        some (lttng_ust_type_common.integer 32 (tgt.rb_alignof_gid_t * 8) false
          tgt.BYTE_ORDER 10),
        some FnPtr.vgid_get_size, some FnPtr.vgid_record, some FnPtr.vgid_get_value⟩] ∧
    ((lttng_add_vgid_to_ctx tgt o s).state.fields.filter
      (fun f => decide (f.name = some "vgid"))).length = 1 ∧
    (lttng_add_vgid_to_ctx tgt o s).state.updates = s.updates + 1 := by
  have hE : (-ENOMEM : Int) ≠ 0 := by decide
  have hX : (-EEXIST : Int) ≠ 0 := by decide
  cases h1 : o.type_ok with
  | false =>
    rw [add_vgid_type_fails tgt o s h1] at hret
    exact absurd hret hE
  | true =>
    cases h2 : o.append_ok with
    | false =>
      rw [add_vgid_append_fails tgt o s h1 h2] at hret
      exact absurd hret hE
    | true =>
      cases h3 : lttng_find_context "vgid" s.fields with
      | true =>
        rw [add_vgid_duplicate tgt o s h1 h2 h3] at hret
        exact absurd hret hX
      | false =>
        cases h4 : o.strdup_ok with
        | false =>
          rw [add_vgid_strdup_fails tgt o s h1 h2 h3 h4] at hret
          exact absurd hret hE
        | true =>
          rw [add_vgid_succeeds tgt o s h1 h2 h3 h4]
          refine ⟨rfl, rfl, ?_, rfl⟩
          have hnone : s.fields.filter (fun f => decide (f.name = some "vgid")) = [] := by
            rw [List.filter_eq_nil_iff]
            intro f hf hname
            have : lttng_find_context "vgid" s.fields = true :=
              (lttng_find_context_iff "vgid" s.fields).mpr ⟨f, hf, of_decide_eq_true hname⟩
            rw [h3] at this
            exact Bool.false_ne_true this
          simp only [List.filter_append, hnone, List.nil_append]
          rfl

/-- Witness for C8: adding "vgid" to a list that holds one field named "vpid",
with every allocation succeeding, returns 0. -/
theorem add_vgid_success_appends_one_field_witness :
    (lttng_add_vgid_to_ctx ⟨4, ByteOrder.LITTLE_ENDIAN⟩ ⟨true, true, true⟩
      ⟨[⟨some "vpid", none, none, none, none⟩], [], 0⟩).ret = 0 ∧
    (lttng_add_vgid_to_ctx ⟨4, ByteOrder.LITTLE_ENDIAN⟩ ⟨true, true, true⟩
      ⟨[⟨some "vpid", none, none, none, none⟩], [], 0⟩).state.fields =
      [⟨some "vpid", none, none, none, none⟩,
        ⟨some "vgid", some (lttng_ust_type_common.integer 32 32 false
          ByteOrder.LITTLE_ENDIAN 10),
        some FnPtr.vgid_get_size, some FnPtr.vgid_record, some FnPtr.vgid_get_value⟩] :=
  ⟨by decide,
    (add_vgid_success_appends_one_field ⟨4, ByteOrder.LITTLE_ENDIAN⟩ ⟨true, true, true⟩
      ⟨[⟨some "vpid", none, none, none, none⟩], [], 0⟩ (by decide)).2.1⟩

/-- C9. If any allocation that `lttng_add_vgid_to_ctx` makes fails (creating
the type descriptor, appending the context field, or duplicating the name
string), the call returns `-ENOMEM` and the state after the call is the state
before it: the appended field is removed again so the context list is the same
list, the type descriptor created by the call is destroyed so the live type
descriptors are the same, and no update notification is issued. -/
theorem add_vgid_alloc_failure_unwinds (tgt : Target) (o : AllocOutcomes) (s : CtxState)
    (hfail : ∃ site, (site, false) ∈ (lttng_add_vgid_to_ctx tgt o s).allocs) :
    (lttng_add_vgid_to_ctx tgt o s).ret = -ENOMEM ∧
    (lttng_add_vgid_to_ctx tgt o s).state.fields = s.fields ∧
    (lttng_add_vgid_to_ctx tgt o s).state.live_types = s.live_types ∧
    (lttng_add_vgid_to_ctx tgt o s).state = s := by
  rcases (add_vgid_alloc_failure_iff tgt o s).mp hfail with h1 | ⟨h1, h2⟩ | ⟨h1, h2, h3, h4⟩
  · rw [add_vgid_type_fails tgt o s h1]
    exact ⟨rfl, rfl, rfl, rfl⟩
  · rw [add_vgid_append_fails tgt o s h1 h2]
    exact ⟨rfl, rfl, rfl, rfl⟩
  · rw [add_vgid_strdup_fails tgt o s h1 h2 h3 h4]
    exact ⟨rfl, rfl, rfl, rfl⟩

/-- Witness for C9: the list holds one field named "vpid" and one live type
descriptor; the type descriptor and the field are allocated, the duplication of
the name fails. -/
theorem add_vgid_alloc_failure_unwinds_witness :
    (AllocSite.name_string, false) ∈
      (lttng_add_vgid_to_ctx ⟨4, ByteOrder.LITTLE_ENDIAN⟩ ⟨true, true, false⟩
        ⟨[⟨some "vpid", none, none, none, none⟩], [lttng_ust_type_common.other 7], 3⟩).allocs ∧
    (lttng_add_vgid_to_ctx ⟨4, ByteOrder.LITTLE_ENDIAN⟩ ⟨true, true, false⟩
      ⟨[⟨some "vpid", none, none, none, none⟩], [lttng_ust_type_common.other 7], 3⟩).ret
      = -ENOMEM ∧
    (lttng_add_vgid_to_ctx ⟨4, ByteOrder.LITTLE_ENDIAN⟩ ⟨true, true, false⟩
      ⟨[⟨some "vpid", none, none, none, none⟩], [lttng_ust_type_common.other 7], 3⟩).state
      = ⟨[⟨some "vpid", none, none, none, none⟩], [lttng_ust_type_common.other 7], 3⟩ :=
  have hin : (AllocSite.name_string, false) ∈
      (lttng_add_vgid_to_ctx ⟨4, ByteOrder.LITTLE_ENDIAN⟩ ⟨true, true, false⟩
        ⟨[⟨some "vpid", none, none, none, none⟩], [lttng_ust_type_common.other 7], 3⟩).allocs :=
    by decide
  have h := add_vgid_alloc_failure_unwinds ⟨4, ByteOrder.LITTLE_ENDIAN⟩ ⟨true, true, false⟩
    ⟨[⟨some "vpid", none, none, none, none⟩], [lttng_ust_type_common.other 7], 3⟩
    ⟨AllocSite.name_string, hin⟩
  ⟨hin, h.1, h.2.2.2⟩

/-- C10, as stated, fails in two places. From a session with no context fields,
the first add returns `-ENOMEM` when the type descriptor cannot be created; and
after a first add that succeeded, the second add returns `-ENOMEM`, not
`-EEXIST`, when the append of the new field fails. -/
theorem vgid_scenario_fails_on_allocation_failure :
    (lttng_add_vgid_to_ctx ⟨4, ByteOrder.LITTLE_ENDIAN⟩ ⟨false, true, true⟩ ⟨[], [], 0⟩).ret
      ≠ 0 ∧
    (lttng_add_vgid_to_ctx ⟨4, ByteOrder.LITTLE_ENDIAN⟩ ⟨true, true, true⟩ ⟨[], [], 0⟩).ret
      = 0 ∧
    (lttng_add_vgid_to_ctx ⟨4, ByteOrder.LITTLE_ENDIAN⟩ ⟨true, false, true⟩
      (lttng_add_vgid_to_ctx ⟨4, ByteOrder.LITTLE_ENDIAN⟩ ⟨true, true, true⟩
        ⟨[], [], 0⟩).state).ret ≠ -EEXIST := by
  refine ⟨?_, ?_, ?_⟩
  · rw [add_vgid_type_fails _ _ _ rfl]
    decide
  · rw [add_vgid_succeeds ⟨4, ByteOrder.LITTLE_ENDIAN⟩ ⟨true, true, true⟩ ⟨[], [], 0⟩
      rfl rfl rfl rfl]
  · rw [add_vgid_append_fails _ _ _ rfl rfl]
    decide

/-- C10, amended. Start from a session with no context fields and let no
allocation fail in the calls below. Adding the "vgid" field returns 0 and the
list is then that one field, at position 0. Adding it a second time returns
`-EEXIST` and leaves the state as it was. After the field at position 0 is
removed the list is empty again, and adding "vgid" returns 0 again. -/
theorem vgid_add_twice_remove_add_again (tgt : Target) (s : CtxState)
    (o1 o2 o3 : AllocOutcomes) (hs : s.fields = [])
    (h1 : o1.type_ok = true ∧ o1.append_ok = true ∧ o1.strdup_ok = true)
    (h2 : o2.type_ok = true ∧ o2.append_ok = true)
    (h3 : o3.type_ok = true ∧ o3.append_ok = true ∧ o3.strdup_ok = true) :
    (lttng_add_vgid_to_ctx tgt o1 s).ret = 0 ∧
    (lttng_add_vgid_to_ctx tgt o1 s).state.fields = [vgid_field tgt] ∧
    (lttng_add_vgid_to_ctx tgt o2 (lttng_add_vgid_to_ctx tgt o1 s).state).ret = -EEXIST ∧
    (lttng_add_vgid_to_ctx tgt o2 (lttng_add_vgid_to_ctx tgt o1 s).state).state =
      (lttng_add_vgid_to_ctx tgt o1 s).state ∧
    (lttng_remove_context_field 0
      (lttng_add_vgid_to_ctx tgt o2 (lttng_add_vgid_to_ctx tgt o1 s).state).state).fields = [] ∧
    (lttng_add_vgid_to_ctx tgt o3
      (lttng_remove_context_field 0
        (lttng_add_vgid_to_ctx tgt o2 (lttng_add_vgid_to_ctx tgt o1 s).state).state)).ret = 0 ∧
    (lttng_add_vgid_to_ctx tgt o3
      (lttng_remove_context_field 0
        (lttng_add_vgid_to_ctx tgt o2
          (lttng_add_vgid_to_ctx tgt o1 s).state).state)).state.fields = [vgid_field tgt] := by
  have e1 : lttng_find_context "vgid" s.fields = false := by rw [hs]; rfl
  rw [add_vgid_succeeds tgt o1 s h1.1 h1.2.1 e1 h1.2.2]
  have e2 : lttng_find_context "vgid" (s.fields ++ [vgid_field tgt]) = true := by
    rw [hs]; rfl
  rw [add_vgid_duplicate tgt o2 _ h2.1 h2.2 e2]
  have e3 : lttng_find_context "vgid"
      (lttng_remove_context_field 0
        { fields := s.fields ++ [vgid_field tgt]
          live_types := lttng_ust_type_common.integer (sizeof_gid_t * CHAR_BIT)
            (tgt.rb_alignof_gid_t * CHAR_BIT) false tgt.BYTE_ORDER 10 :: s.live_types
          updates := s.updates + 1 }).fields = false := by
    rw [hs]; rfl
  rw [add_vgid_succeeds tgt o3 _ h3.1 h3.2.1 e3 h3.2.2]
  simp [hs, lttng_remove_context_field]

/-- Witness for the amended C10: the empty session, with every allocation
succeeding in the three calls. -/
theorem vgid_add_twice_remove_add_again_witness :
    (lttng_add_vgid_to_ctx ⟨4, ByteOrder.LITTLE_ENDIAN⟩ ⟨true, true, true⟩ ⟨[], [], 0⟩).ret
      = 0 ∧
    (lttng_add_vgid_to_ctx ⟨4, ByteOrder.LITTLE_ENDIAN⟩ ⟨true, true, true⟩
      (lttng_add_vgid_to_ctx ⟨4, ByteOrder.LITTLE_ENDIAN⟩ ⟨true, true, true⟩
        ⟨[], [], 0⟩).state).ret = -EEXIST ∧
    (lttng_add_vgid_to_ctx ⟨4, ByteOrder.LITTLE_ENDIAN⟩ ⟨true, true, true⟩
      (lttng_remove_context_field 0
        (lttng_add_vgid_to_ctx ⟨4, ByteOrder.LITTLE_ENDIAN⟩ ⟨true, true, true⟩
          (lttng_add_vgid_to_ctx ⟨4, ByteOrder.LITTLE_ENDIAN⟩ ⟨true, true, true⟩
            ⟨[], [], 0⟩).state).state)).ret = 0 :=
  have h := vgid_add_twice_remove_add_again ⟨4, ByteOrder.LITTLE_ENDIAN⟩ ⟨[], [], 0⟩
    ⟨true, true, true⟩ ⟨true, true, true⟩ ⟨true, true, true⟩ rfl
    ⟨rfl, rfl, rfl⟩ ⟨rfl, rfl⟩ ⟨rfl, rfl, rfl⟩
  ⟨h.1, h.2.2.1, h.2.2.2.2.2.1⟩

/-! ### The vgid callbacks: lemmas and claims -/

theorem ring_buffer_align_lt (off a : Nat) (ha : 0 < a) :
    lttng_ust_lib_ring_buffer_align off a < a := by
  unfold lttng_ust_lib_ring_buffer_align
  exact Nat.mod_lt _ ha

theorem ring_buffer_align_aligned (off a : Nat) (ha : 0 < a) :
    (off + lttng_ust_lib_ring_buffer_align off a) % a = 0 := by
  unfold lttng_ust_lib_ring_buffer_align
  have hr : off % a < a := Nat.mod_lt _ ha
  rw [Nat.add_mod, Nat.mod_mod]
  generalize off % a = r at hr
  by_cases h0 : r = 0
  · subst h0
    simp
  · have h1 : (a - r) % a = a - r := Nat.mod_eq_of_lt (by omega)
    have h2 : r + (a - r) = a := by omega
    rw [h1, h2]
    exact Nat.mod_self a

theorem ring_buffer_align_least (off a p : Nat) (ha : 0 < a) (hp : (off + p) % a = 0) :
    lttng_ust_lib_ring_buffer_align off a ≤ p := by
  unfold lttng_ust_lib_ring_buffer_align
  have hr : off % a < a := Nat.mod_lt _ ha
  by_cases hpa : a ≤ p
  · exact Nat.le_trans (Nat.le_of_lt (Nat.mod_lt _ ha)) hpa
  · have hplt : p < a := Nat.lt_of_not_le hpa
    rw [Nat.add_mod, Nat.mod_eq_of_lt hplt] at hp
    generalize off % a = r at hr hp
    by_cases h0 : r = 0
    · subst h0
      simp
    · have h1 : (a - r) % a = a - r := Nat.mod_eq_of_lt (by omega)
      rw [h1]
      by_cases hlt : r + p < a
      · rw [Nat.mod_eq_of_lt hlt] at hp
        omega
      · omega

theorem gid_t_of_bytes_gid_t_bytes (bo : ByteOrder) (v : Nat) (hv : v < 2 ^ 32) :
    gid_t_of_bytes bo (gid_t_bytes bo v) = v := by
  have hv' : v < 4294967296 := by simpa using hv
  cases bo <;> simp only [gid_t_bytes, gid_t_of_bytes] <;> omega

theorem int64_t_cast_of_gid (v : Nat) (hv : v < 2 ^ 32) :
    int64_t_cast (Int.ofNat v) = Int.ofNat v := by
  have hv' : v < 4294967296 := by simpa using hv
  unfold int64_t_cast
  have h : ((Int.ofNat v : Int) + 2 ^ 63) % 2 ^ 64 = Int.ofNat v + 2 ^ 63 := by
    apply Int.emod_eq_of_lt
    · have : (0 : Int) ≤ Int.ofNat v := Int.ofNat_nonneg v
      omega
    · have : (Int.ofNat v : Int) < 4294967296 := by
        have := Int.ofNat_lt.mpr hv'
        simpa using this
      omega
  rw [h]
  omega

theorem get_vgid_lt (g : Nat) (s : VgidState) (hc : s.cached_vgid < 2 ^ 32) (hg : g < 2 ^ 32) :
    (get_vgid g s).1 < 2 ^ 32 := by
  by_cases h : s.cached_vgid = INVALID_GID
  · rw [get_vgid_miss g s h]
    exact hg
  · rw [get_vgid_hit g s h]
    exact hc

/-- C11. For every offset (the alignment of the field being positive), the
vgid size callback returns `pad + sizeof(gid_t)`, where `pad` is the smallest
number of bytes such that `offset + pad` is a multiple of the alignment. The
record callback, run at that offset, makes one write: exactly `sizeof(gid_t)`
= 4 bytes, the bytes of the value `get_vgid` returns, starting at the aligned
offset `offset + pad`, and the offset then stands `vgid_get_size` bytes further.
For a field aligned on 8 bytes at offset 5 the size is 7 and the 4 bytes are
written at offset 8. -/
theorem vgid_get_size_pads_to_alignment (tgt : Target) (offset g : Nat) (s : VgidState)
    (written : List (Nat × List Nat)) (halign : 0 < tgt.rb_alignof_gid_t) :
    (∃ pad,
      vgid_get_size tgt offset = pad + sizeof_gid_t ∧
      (offset + pad) % tgt.rb_alignof_gid_t = 0 ∧
      (∀ p, (offset + p) % tgt.rb_alignof_gid_t = 0 → pad ≤ p) ∧
      (vgid_record tgt g s ⟨offset, written⟩).2.written =
        written ++ [(offset + pad, gid_t_bytes tgt.BYTE_ORDER (get_vgid g s).1)] ∧
      (vgid_record tgt g s ⟨offset, written⟩).2.buf_offset =
        offset + vgid_get_size tgt offset) ∧
    (gid_t_bytes tgt.BYTE_ORDER (get_vgid g s).1).length = sizeof_gid_t ∧
    sizeof_gid_t = 4 ∧
    vgid_get_size ⟨8, tgt.BYTE_ORDER⟩ 5 = 7 ∧
    (vgid_record ⟨8, tgt.BYTE_ORDER⟩ g s ⟨5, written⟩).2.written =
      written ++ [(8, gid_t_bytes tgt.BYTE_ORDER (get_vgid g s).1)] := by
  have hlen : ∀ v, (gid_t_bytes tgt.BYTE_ORDER v).length = sizeof_gid_t := by
    intro v
    cases tgt.BYTE_ORDER <;> rfl
  have htake : ∀ v, (gid_t_bytes tgt.BYTE_ORDER v).take sizeof_gid_t =
      gid_t_bytes tgt.BYTE_ORDER v := by
    intro v
    rw [← hlen v, List.take_length]
  refine ⟨⟨lttng_ust_lib_ring_buffer_align offset tgt.rb_alignof_gid_t, ?_, ?_, ?_, ?_, ?_⟩,
    hlen _, rfl, rfl, ?_⟩
  · simp [vgid_get_size]
  · exact ring_buffer_align_aligned offset _ halign
  · exact fun p hp => ring_buffer_align_least offset _ p halign hp
  · simp only [vgid_record, event_write, htake]
  · simp only [vgid_record, event_write, vgid_get_size]
    omega
  · simp only [vgid_record, event_write, htake]
    rfl

/-- Witness for C11: a target where `gid_t` is aligned on 4 bytes, offset 6,
the initial cache and a system reporting gid 1000. -/
theorem vgid_get_size_pads_to_alignment_witness :
    vgid_get_size ⟨4, ByteOrder.LITTLE_ENDIAN⟩ 6 = 6 ∧
    (vgid_record ⟨4, ByteOrder.LITTLE_ENDIAN⟩ 1000 VgidState.init ⟨6, []⟩).2.written =
      [(8, [232, 3, 0, 0])] ∧
    vgid_get_size ⟨8, ByteOrder.LITTLE_ENDIAN⟩ 5 = 7 :=
  have h := vgid_get_size_pads_to_alignment ⟨4, ByteOrder.LITTLE_ENDIAN⟩ 6 1000
    VgidState.init [] (by decide)
  ⟨by decide, by decide, h.2.2.2.1⟩

/-- C12. For every cache state and system group id (both `gid_t` values, that
is, below `2^32`), the vgid value callback stores into the signed 64-bit member
exactly the value that `get_vgid` returns in that state, and leaves the cache
as `get_vgid` does; the bytes that the record callback writes in that state
hold the same value. The value is converted without sign extension: the
scalar lies in `0 .. 2^32 - 1` and is never negative. -/
theorem vgid_get_value_is_get_vgid (tgt : Target) (g : Nat) (s : VgidState)
    (value : lttng_ust_ctx_value) (ctx : lttng_ust_lib_ring_buffer_ctx)
    (hc : s.cached_vgid < 2 ^ 32) (hg : g < 2 ^ 32) :
    (vgid_get_value g s value).2.s64 = Int.ofNat (get_vgid g s).1 ∧
    (vgid_get_value g s value).1 = (get_vgid g s).2 ∧
    (∃ start bytes,
      (vgid_record tgt g s ctx).2.written = ctx.written ++ [(start, bytes)] ∧
      Int.ofNat (gid_t_of_bytes tgt.BYTE_ORDER bytes) = (vgid_get_value g s value).2.s64) ∧
    0 ≤ (vgid_get_value g s value).2.s64 ∧
    (vgid_get_value g s value).2.s64 ≤ 2 ^ 32 - 1 := by
  have hlt : (get_vgid g s).1 < 2 ^ 32 := get_vgid_lt g s hc hg
  have hval : (vgid_get_value g s value).2.s64 = Int.ofNat (get_vgid g s).1 := by
    simp only [vgid_get_value]
    exact int64_t_cast_of_gid _ hlt
  have hlen : (gid_t_bytes tgt.BYTE_ORDER (get_vgid g s).1).length = sizeof_gid_t := by
    cases tgt.BYTE_ORDER <;> rfl
  refine ⟨hval, rfl,
    ⟨ctx.buf_offset + lttng_ust_lib_ring_buffer_align ctx.buf_offset tgt.rb_alignof_gid_t,
      gid_t_bytes tgt.BYTE_ORDER (get_vgid g s).1, ?_, ?_⟩, ?_, ?_⟩
  · simp only [vgid_record, event_write]
    rw [← hlen, List.take_length]
  · rw [hval, gid_t_of_bytes_gid_t_bytes _ _ hlt]
  · rw [hval]
    exact Int.ofNat_nonneg _
  · rw [hval]
    have h1 : (Int.ofNat (get_vgid g s).1 : Int) < 2 ^ 32 := by
      have := Int.ofNat_lt.mpr hlt
      simpa using this
    omega

/-- Witness for C12: the cache holds the sentinel and the system reports the
largest `gid_t` below it; the scalar is 4294967294, not a negative number. -/
theorem vgid_get_value_is_get_vgid_witness :
    (vgid_get_value 4294967294 VgidState.init ⟨0⟩).2.s64 = 4294967294 :=
  have h := vgid_get_value_is_get_vgid ⟨4, ByteOrder.LITTLE_ENDIAN⟩ 4294967294
    VgidState.init ⟨0⟩ ⟨0, []⟩ (by rw [VgidState.init, INVALID_GID_eq]; decide) (by decide)
  have h0 : get_vgid 4294967294 VgidState.init = (4294967294, ⟨4294967294, 1⟩) :=
    get_vgid_miss _ VgidState.init rfl
  by rw [h.1, h0]; rfl

/-! ### Enum descriptor table: lemmas and claim -/

theorem char_eq_of_toNat_sub_eq_zero (a b : Char)
    (h : Int.ofNat a.toNat - Int.ofNat b.toNat = 0) : a = b := by
  have h1 : (Int.ofNat a.toNat : Int) = Int.ofNat b.toNat := by omega
  have h2 : a.toNat = b.toNat := Int.ofNat.inj h1
  rw [← Char.ofNat_toNat a, ← Char.ofNat_toNat b, h2]

/-- When the second string has at least `n` characters, none of them NUL,
`strncmp` returns zero exactly when the first `n` characters of the two strings
are the same. -/
theorem strncmp_eq_zero_iff (n : Nat) : ∀ (a b : List Char), n ≤ b.length →
    (∀ c ∈ b, c.toNat ≠ 0) → (strncmp a b n = 0 ↔ a.take n = b.take n) := by
  induction n with
  | zero =>
    intro a b _ _
    simp [strncmp]
  | succ n ih =>
    intro a b hlen hnz
    cases b with
    | nil => simp at hlen
    | cons y bs =>
      cases a with
      | nil =>
        have hy : y.toNat ≠ 0 := hnz y (List.mem_cons_self _ _)
        simp only [strncmp, List.take_nil, List.take_succ_cons]
        constructor
        · intro h
          have : (Int.ofNat y.toNat : Int) = 0 := by omega
          exact absurd (Int.ofNat.inj this) hy
        · intro h
          exact absurd h (by simp)
      | cons x as =>
        simp only [strncmp, List.take_succ_cons]
        by_cases hxy : x = y
        · subst hxy
          simp only [if_true, List.cons.injEq, true_and]
          exact ih as bs (by simpa using hlen) (fun c hc => hnz c (List.mem_cons_of_mem _ hc))
        · simp only [hxy, if_false, List.cons.injEq, false_and, iff_false]
          exact fun h => hxy (char_eq_of_toNat_sub_eq_zero x y h)

/-- C20. For every string `name`, `lttng_context_is_app(name)` returns 1 exactly
when the first five characters of `name` are `$app.` (compared character by
character, so case matters), and 0 exactly when they are not; it returns 0 for
every name shorter than five characters, the empty string included; and the
result is never anything but 0 or 1. -/
theorem lttng_context_is_app_spec (name : String) :
    (lttng_context_is_app name = 1 ↔ name.data.take 5 = ['$', 'a', 'p', 'p', '.']) ∧
    (lttng_context_is_app name = 0 ↔ name.data.take 5 ≠ ['$', 'a', 'p', 'p', '.']) ∧
    (name.data.length < 5 → lttng_context_is_app name = 0) ∧
    lttng_context_is_app "" = 0 ∧
    (lttng_context_is_app name = 0 ∨ lttng_context_is_app name = 1) := by
  have hkey : strncmp name.data "$app.".data (strlen "$app.".data) = 0 ↔
      name.data.take 5 = ['$', 'a', 'p', 'p', '.'] :=
    strncmp_eq_zero_iff 5 name.data ['$', 'a', 'p', 'p', '.'] (by decide) (by decide)
  have h1 : lttng_context_is_app name = 1 ↔ name.data.take 5 = ['$', 'a', 'p', 'p', '.'] := by
    unfold lttng_context_is_app
    by_cases h : strncmp name.data "$app.".data (strlen "$app.".data) = 0
    · simp [h, hkey.mp h]
    · have hne : ¬ name.data.take 5 = ['$', 'a', 'p', 'p', '.'] := fun e => h (hkey.mpr e)
      simp [h, hne]
  have h0 : lttng_context_is_app name = 0 ↔ name.data.take 5 ≠ ['$', 'a', 'p', 'p', '.'] := by
    unfold lttng_context_is_app
    by_cases h : strncmp name.data "$app.".data (strlen "$app.".data) = 0
    · simp [h, hkey.mp h]
    · have hne : ¬ name.data.take 5 = ['$', 'a', 'p', 'p', '.'] := fun e => h (hkey.mpr e)
      simp [h, hne]
  refine ⟨h1, h0, ?_, by decide, ?_⟩
  · intro hshort
    rw [h0]
    intro e
    have hl := congrArg List.length e
    simp only [List.length_take, List.length_cons, List.length_nil] at hl
    omega
  · by_cases e : name.data.take 5 = ['$', 'a', 'p', 'p', '.']
    · exact Or.inr (h1.mpr e)
    · exact Or.inl (h0.mpr e)

/-! ### Channel objects: lemmas -/

theorem free_live_head (a : Ptr) (h : Heap) (l : List Ptr) (hl : h.live = a :: l) :
    free (some a) h = some { h with live := l, frees := a :: h.frees } := by
  unfold free
  simp [hl]

/-- The first allocation fails: `NULL` is returned and the heap is untouched. -/
theorem alloc_channel_buffer_first_fails (sz : Sizes) (m : ZmallocResults) (h : Heap)
    (h1 : m.chan_buf = none) :
    lttng_ust_alloc_channel_buffer sz m h = Outcome.returned none h := by
  unfold lttng_ust_alloc_channel_buffer
  rw [h1]

/-- The second allocation fails after the first returned `b`. -/
theorem alloc_channel_buffer_second_fails (sz : Sizes) (m : ZmallocResults) (h : Heap)
    (b : Ptr) (h1 : m.chan_buf = some b) (h2 : m.chan_common = none) :
    ∃ h', lttng_ust_alloc_channel_buffer sz m h = Outcome.returned none h' ∧
      h'.live = h.live ∧ h'.frees = b :: h.frees := by
  unfold lttng_ust_alloc_channel_buffer
  rw [h1, h2]
  simp only [zmalloc_chan_buf]
  rw [free_live_head b _ h.live rfl]
  exact ⟨_, rfl, rfl, rfl⟩

/-- The third allocation fails after the first two returned `b` and `c`. -/
theorem alloc_channel_buffer_third_fails (sz : Sizes) (m : ZmallocResults) (h : Heap)
    (b c : Ptr) (h1 : m.chan_buf = some b) (h2 : m.chan_common = some c)
    (h3 : m.chan_buf_priv = none) :
    ∃ h', lttng_ust_alloc_channel_buffer sz m h = Outcome.returned none h' ∧
      h'.live = h.live ∧ h'.frees = b :: c :: h.frees := by
  unfold lttng_ust_alloc_channel_buffer
  rw [h1, h2, h3]
  simp only [zmalloc_chan_buf, zmalloc_chan_common]
  rw [free_live_head c _ (b :: h.live) rfl]
  simp only []
  rw [free_live_head b _ h.live rfl]
  exact ⟨_, rfl, rfl, rfl⟩

/-- All three allocations succeed, returning `b`, `c` and `p`. -/
theorem alloc_channel_buffer_succeeds (sz : Sizes) (m : ZmallocResults) (h : Heap)
    (b c p : Ptr) (h1 : m.chan_buf = some b) (h2 : m.chan_common = some c)
    (h3 : m.chan_buf_priv = some p) :
    ∃ h', lttng_ust_alloc_channel_buffer sz m h = Outcome.returned (some b) h' ∧
      h'.live = p :: c :: b :: h.live ∧ h'.frees = h.frees ∧
      h'.chan_buf b = ⟨sz.sizeof_channel_buffer, some c, some p⟩ ∧
      h'.chan_common c =
        ⟨sz.sizeof_channel_common, LTTNG_UST_CHANNEL_TYPE_BUFFER, some b, some p⟩ ∧
      h'.chan_buf_priv p = ⟨0, ⟨some c⟩, some b⟩ := by
  unfold lttng_ust_alloc_channel_buffer
  rw [h1, h2, h3]
  refine ⟨_, rfl, ?_, ?_, ?_, ?_, ?_⟩ <;>
    simp [zmalloc_chan_buf, zmalloc_chan_common, zmalloc_chan_buf_priv]

/-- A result other than `NULL` means that all three allocations succeeded and
that the result is the first block. -/
theorem alloc_channel_buffer_returned_some (sz : Sizes) (m : ZmallocResults) (h h' : Heap)
    (b : Ptr) (hret : lttng_ust_alloc_channel_buffer sz m h = Outcome.returned (some b) h') :
    ∃ c p, m.chan_buf = some b ∧ m.chan_common = some c ∧ m.chan_buf_priv = some p := by
  cases h1 : m.chan_buf with
  | none =>
    rw [alloc_channel_buffer_first_fails sz m h h1] at hret
    have := (Outcome.returned.inj hret).1
    exact absurd this (by simp)
  | some b0 =>
    cases h2 : m.chan_common with
    | none =>
      obtain ⟨h2', e, _⟩ := alloc_channel_buffer_second_fails sz m h b0 h1 h2
      rw [e] at hret
      exact absurd (Outcome.returned.inj hret).1 (by simp)
    | some c =>
      cases h3 : m.chan_buf_priv with
      | none =>
        obtain ⟨h2', e, _⟩ := alloc_channel_buffer_third_fails sz m h b0 c h1 h2 h3
        rw [e] at hret
        exact absurd (Outcome.returned.inj hret).1 (by simp)
      | some p =>
        obtain ⟨h2', e, _⟩ := alloc_channel_buffer_succeeds sz m h b0 c p h1 h2 h3
        rw [e] at hret
        have hb : b0 = b := Option.some.inj (Outcome.returned.inj hret).1
        exact ⟨c, p, by rw [hb], rfl, rfl⟩

/-- Freeing the head of a channel whose three blocks are the latest
allocations and are linked as `lttng_ust_alloc_channel_buffer` links them. -/
theorem free_channel_common_linked (h : Heap) (b c p : Ptr) (l : List Ptr)
    (hlive : h.live = p :: c :: b :: l)
    (hc : h.chan_common c = ⟨(h.chan_common c).struct_size, LTTNG_UST_CHANNEL_TYPE_BUFFER,
      some b, some p⟩)
    (hb : h.chan_buf b = ⟨(h.chan_buf b).struct_size, some c, some p⟩) :
    ∃ h', lttng_ust_free_channel_common c h = Outcome.returned () h' ∧
      h'.live = l ∧ h'.frees = b :: p :: c :: h.frees := by
  have htype : (h.chan_common c).type = LTTNG_UST_CHANNEL_TYPE_BUFFER := by rw [hc]
  have hchild : (h.chan_common c).child = some b := by rw [hc]
  have hparent : (h.chan_buf b).parent = some c := by rw [hb]
  have hpriv : (h.chan_buf b).priv = some p := by rw [hb]
  unfold lttng_ust_free_channel_common
  rw [if_pos htype, hchild]
  simp only [hparent]
  by_cases hpc : p = c
  · subst hpc
    have e1 : free (some p) h =
        some { h with live := p :: b :: l, frees := p :: h.frees } :=
      free_live_head p h _ hlive
    rw [e1]
    simp only [hpriv]
    rw [free_live_head p _ (b :: l) rfl]
    simp only []
    rw [free_live_head b _ l rfl]
    exact ⟨_, rfl, rfl, rfl⟩
  · have e1 : free (some c) h =
        some { h with live := p :: b :: l, frees := c :: h.frees } := by
      unfold free
      have hne : ¬ (p == c) = true := by simpa using hpc
      simp [hlive, List.erase_cons, hne]
    rw [e1]
    simp only [hpriv]
    rw [free_live_head p _ (b :: l) rfl]
    simp only []
    rw [free_live_head b _ l rfl]
    exact ⟨_, rfl, rfl, rfl⟩

/-! ### Channel objects: the claims -/

/-- C14. Whenever `lttng_ust_alloc_channel_buffer` returns a buffer body `b`
(a result other than `NULL`), there are a head `c` and a private block `p`, the
blocks of the second and third allocation, with `c.child == b`,
`b.parent == c`, the tag of `c` the buffer kind, `b.priv == p`, `c.priv` the
parent part of `p`, `p.pub == b` and `p.parent.pub == c`. -/
theorem alloc_channel_buffer_links (sz : Sizes) (m : ZmallocResults) (h h' : Heap) (b : Ptr)
    (hret : lttng_ust_alloc_channel_buffer sz m h = Outcome.returned (some b) h') :
    ∃ c p, m.chan_common = some c ∧ m.chan_buf_priv = some p ∧
      (h'.chan_common c).child = some b ∧
      (h'.chan_buf b).parent = some c ∧
      (h'.chan_common c).type = LTTNG_UST_CHANNEL_TYPE_BUFFER ∧
      (h'.chan_buf b).priv = some p ∧
      (h'.chan_common c).priv = some p ∧
      (h'.chan_buf_priv p).pub = some b ∧
      (h'.chan_buf_priv p).parent.pub = some c := by
  obtain ⟨c, p, h1, h2, h3⟩ := alloc_channel_buffer_returned_some sz m h h' b hret
  obtain ⟨h2', e, _, _, eb, ec, ep⟩ := alloc_channel_buffer_succeeds sz m h b c p h1 h2 h3
  rw [e] at hret
  have hh : h2' = h' := (Outcome.returned.inj hret).2
  subst hh
  refine ⟨c, p, h2, h3, ?_, ?_, ?_, ?_, ?_, ?_, ?_⟩
  · rw [ec]
  · rw [eb]
  · rw [ec]
  · rw [eb]
  · rw [ec]
  · rw [ep]
  · rw [ep]

/-- Witness for C14: on the empty heap, `zmalloc` returns the blocks 16, 32
and 48. -/
theorem alloc_channel_buffer_links_witness :
    ∃ h', lttng_ust_alloc_channel_buffer ⟨24, 32, 64⟩ ⟨some 16, some 32, some 48⟩ Heap.empty
        = Outcome.returned (some 16) h' ∧
      (h'.chan_common 32).child = some 16 ∧ (h'.chan_buf 16).parent = some 32 := by
  obtain ⟨h', e, _⟩ := alloc_channel_buffer_succeeds ⟨24, 32, 64⟩
    ⟨some 16, some 32, some 48⟩ Heap.empty 16 32 48 rfl rfl rfl
  obtain ⟨c, p, hc, _, k1, k2, _⟩ := alloc_channel_buffer_links ⟨24, 32, 64⟩
    ⟨some 16, some 32, some 48⟩ Heap.empty h' 16 e
  have hc32 : c = 32 := (Option.some.inj hc).symm
  subst hc32
  exact ⟨h', e, k1, k2⟩

/-- C15. For each of the three allocations of `lttng_ust_alloc_channel_buffer`:
if it fails while the earlier ones succeeded, the function returns `NULL`, each
block allocated earlier in the call has been passed to `free` once (the record
of `free` calls grows by exactly those blocks), and the live blocks after the
call are the live blocks before it. When the second allocation fails, the block
of the first one is freed. -/
theorem alloc_channel_buffer_failure_frees_all (sz : Sizes) (m : ZmallocResults) (h : Heap) :
    (m.chan_buf = none →
      lttng_ust_alloc_channel_buffer sz m h = Outcome.returned none h) ∧
    (∀ b, m.chan_buf = some b → m.chan_common = none →
      ∃ h', lttng_ust_alloc_channel_buffer sz m h = Outcome.returned none h' ∧
        h'.live = h.live ∧ h'.frees = b :: h.frees) ∧
    (∀ b c, m.chan_buf = some b → m.chan_common = some c → m.chan_buf_priv = none →
      ∃ h', lttng_ust_alloc_channel_buffer sz m h = Outcome.returned none h' ∧
        h'.live = h.live ∧ h'.frees = b :: c :: h.frees) :=
  ⟨alloc_channel_buffer_first_fails sz m h,
    fun b h1 h2 => alloc_channel_buffer_second_fails sz m h b h1 h2,
    fun b c h1 h2 h3 => alloc_channel_buffer_third_fails sz m h b c h1 h2 h3⟩

/-- C16. For every channel produced by a successful
`lttng_ust_alloc_channel_buffer`, with buffer body `b`, head `c` and private
block `p`: the allocation made exactly these three blocks live, and
`lttng_ust_free_channel_common` called on the head returns after passing
exactly these three blocks to `free`, each once; the live blocks are then the
ones from before the allocation. -/
theorem free_channel_common_releases_allocation (sz : Sizes) (m : ZmallocResults)
    (h h1 : Heap) (b : Ptr)
    (hret : lttng_ust_alloc_channel_buffer sz m h = Outcome.returned (some b) h1) :
    ∃ c p h2, (h1.chan_buf b).parent = some c ∧ (h1.chan_buf b).priv = some p ∧
      h1.live = p :: c :: b :: h.live ∧ h1.frees = h.frees ∧
      lttng_ust_free_channel_common c h1 = Outcome.returned () h2 ∧
      h2.frees = b :: p :: c :: h.frees ∧
      h2.live = h.live := by
  obtain ⟨c, p, e1, e2, e3⟩ := alloc_channel_buffer_returned_some sz m h h1 b hret
  obtain ⟨h', e, hlive, hfrees, eb, ec, _⟩ :=
    alloc_channel_buffer_succeeds sz m h b c p e1 e2 e3
  rw [e] at hret
  have hh : h' = h1 := (Outcome.returned.inj hret).2
  subst hh
  obtain ⟨h2, k, klive, kfrees⟩ := free_channel_common_linked h' b c p h.live hlive
    (by rw [ec]) (by rw [eb])
  exact ⟨c, p, h2, by rw [eb], by rw [eb], hlive, hfrees, k, by rw [kfrees, hfrees], klive⟩

/-- Witness for C16: on the empty heap, `zmalloc` returns the blocks 16, 32 and
48; freeing the head 32 leaves no live block and records three `free` calls. -/
theorem free_channel_common_releases_allocation_witness :
    ∃ h1 h2, lttng_ust_alloc_channel_buffer ⟨24, 32, 64⟩ ⟨some 16, some 32, some 48⟩ Heap.empty
        = Outcome.returned (some 16) h1 ∧
      lttng_ust_free_channel_common 32 h1 = Outcome.returned () h2 ∧
      h2.live = [] ∧ h2.frees = [16, 48, 32] := by
  obtain ⟨h1, e, _, _, eb, _⟩ := alloc_channel_buffer_succeeds ⟨24, 32, 64⟩
    ⟨some 16, some 32, some 48⟩ Heap.empty 16 32 48 rfl rfl rfl
  obtain ⟨c, p, h2, k1, k2, _, _, k5, k6, k7⟩ := free_channel_common_releases_allocation
    ⟨24, 32, 64⟩ ⟨some 16, some 32, some 48⟩ Heap.empty h1 16 e
  rw [eb] at k1 k2
  have hc : c = 32 := (Option.some.inj k1).symm
  have hp : p = 48 := (Option.some.inj k2).symm
  subst hc
  subst hp
  exact ⟨h1, h2, e, k5, k7, k6⟩

/-- C17. `lttng_ust_free_channel_common` ends in `abort()` if and only if the
tag of the head is not the buffer kind. In that case the heap at the abort is
the heap of the call: nothing was freed, and the function does not return. For
a head produced by `lttng_ust_alloc_channel_buffer` the call returns, so the
abort branch is not taken. -/
theorem free_channel_common_aborts_iff (chan : Ptr) (h : Heap) :
    ((∃ h', lttng_ust_free_channel_common chan h = Outcome.aborted h') ↔
      (h.chan_common chan).type ≠ LTTNG_UST_CHANNEL_TYPE_BUFFER) ∧
    ((h.chan_common chan).type ≠ LTTNG_UST_CHANNEL_TYPE_BUFFER →
      lttng_ust_free_channel_common chan h = Outcome.aborted h) ∧
    (∀ sz m h0 b, lttng_ust_alloc_channel_buffer sz m h0 = Outcome.returned (some b) h →
      ∃ c h2, (h.chan_buf b).parent = some c ∧
        (h.chan_common c).type = LTTNG_UST_CHANNEL_TYPE_BUFFER ∧
        lttng_ust_free_channel_common c h = Outcome.returned () h2) := by
  have habort : (h.chan_common chan).type ≠ LTTNG_UST_CHANNEL_TYPE_BUFFER →
      lttng_ust_free_channel_common chan h = Outcome.aborted h := by
    intro hne
    unfold lttng_ust_free_channel_common
    rw [if_neg hne]
  refine ⟨⟨?_, fun hne => ⟨h, habort hne⟩⟩, habort, ?_⟩
  · rintro ⟨h', hab⟩ htype
    unfold lttng_ust_free_channel_common at hab
    rw [if_pos htype] at hab
    split at hab
    · cases hab
    · split at hab
      · cases hab
      · split at hab
        · cases hab
        · split at hab
          · cases hab
          · cases hab
  · intro sz m h0 b hret
    obtain ⟨c, p, e1, e2, e3⟩ := alloc_channel_buffer_returned_some sz m h0 h b hret
    obtain ⟨h', e, hlive, _, eb, ec, _⟩ :=
      alloc_channel_buffer_succeeds sz m h0 b c p e1 e2 e3
    rw [e] at hret
    have hh : h' = h := (Outcome.returned.inj hret).2
    subst hh
    obtain ⟨h2, k, _, _⟩ := free_channel_common_linked h' b c p h0.live hlive
      (by rw [ec]) (by rw [eb])
    exact ⟨c, h2, by rw [eb], by rw [ec], k⟩

/-- C19, as stated, fails for the private block: after a successful allocation
with `sizeof(struct lttng_ust_channel_buffer_private)` equal to 64, the size
recorded in the private block is 0, as `zmalloc` left it, and not 64. -/
theorem alloc_channel_buffer_private_size_not_recorded :
    ∃ h', lttng_ust_alloc_channel_buffer ⟨24, 32, 64⟩ ⟨some 16, some 32, some 48⟩ Heap.empty
        = Outcome.returned (some 16) h' ∧
      (h'.chan_buf_priv 48).struct_size = 0 ∧
      (h'.chan_buf_priv 48).struct_size ≠ (⟨24, 32, 64⟩ : Sizes).sizeof_channel_buffer_private := by
  obtain ⟨h', e, _, _, _, _, ep⟩ := alloc_channel_buffer_succeeds ⟨24, 32, 64⟩
    ⟨some 16, some 32, some 48⟩ Heap.empty 16 32 48 rfl rfl rfl
  refine ⟨h', e, by rw [ep], ?_⟩
  rw [ep]
  decide

/-- C19, amended. Whenever `lttng_ust_alloc_channel_buffer` succeeds, the
buffer body and the common head each carry a recorded size equal to the size of
their struct as known to this code; the function records no size in the private
block, whose size field is left at the zero that `zmalloc` put there. -/
theorem alloc_channel_buffer_records_sizes (sz : Sizes) (m : ZmallocResults) (h h' : Heap)
    (b : Ptr)
    (hret : lttng_ust_alloc_channel_buffer sz m h = Outcome.returned (some b) h') :
    ∃ c p, m.chan_common = some c ∧ m.chan_buf_priv = some p ∧
      (h'.chan_buf b).struct_size = sz.sizeof_channel_buffer ∧
      (h'.chan_common c).struct_size = sz.sizeof_channel_common ∧
      (h'.chan_buf_priv p).struct_size = 0 := by
  obtain ⟨c, p, h1, h2, h3⟩ := alloc_channel_buffer_returned_some sz m h h' b hret
  obtain ⟨h2', e, _, _, eb, ec, ep⟩ := alloc_channel_buffer_succeeds sz m h b c p h1 h2 h3
  rw [e] at hret
  have hh : h2' = h' := (Outcome.returned.inj hret).2
  subst hh
  exact ⟨c, p, h2, h3, by rw [eb], by rw [ec], by rw [ep]⟩

/-- Witness for the amended C19: on the empty heap, `zmalloc` returns the
blocks 16, 32 and 48, and the structs are 24, 32 and 64 bytes long. -/
theorem alloc_channel_buffer_records_sizes_witness :
    ∃ h', lttng_ust_alloc_channel_buffer ⟨24, 32, 64⟩ ⟨some 16, some 32, some 48⟩ Heap.empty
        = Outcome.returned (some 16) h' ∧
      (h'.chan_buf 16).struct_size = 24 ∧ (h'.chan_common 32).struct_size = 32 := by
  obtain ⟨h', e, _⟩ := alloc_channel_buffer_succeeds ⟨24, 32, 64⟩
    ⟨some 16, some 32, some 48⟩ Heap.empty 16 32 48 rfl rfl rfl
  obtain ⟨c, p, hc, _, k1, k2, _⟩ := alloc_channel_buffer_records_sizes ⟨24, 32, 64⟩
    ⟨some 16, some 32, some 48⟩ Heap.empty h' 16 e
  have hc32 : c = 32 := (Option.some.inj hc).symm
  subst hc32
  exact ⟨h', e, k1, k2⟩

/-! ### `get_vgid` under interleaving: lemma and claim -/

/-- A thread that runs `get_vgid()` line by line with no other thread in
between returns what `get_vgid` returns and leaves the state `get_vgid` leaves. -/
theorem get_vgid_alone_eq (g : Nat) (s : VgidState) :
    get_vgid_alone g s = (VgidPc.returned (get_vgid g s).1, (get_vgid g s).2) := by
  by_cases h : s.cached_vgid = gid_t_cast (-1)
  · simp [get_vgid_alone, get_vgid_step, get_vgid, h]
  · simp [get_vgid_alone, get_vgid_step, get_vgid, h]

/-- C18 fails on the code. The cell holds the gid 1000 and the system now
reports 2000. The reset stores the sentinel. Thread 0 then runs line 46 and
loads the sentinel into `vgid`; thread 1 runs `get_vgid()` from line 46 to its
return, stores 2000 and returns 2000; thread 0 runs line 48, finds 2000 in the
cell, skips the query and returns its `vgid`. The value thread 0 returns is the
invalid sentinel `(gid_t) -1`: neither the value cached before the reset nor
the value the system reports. -/
theorem get_vgid_interleaving_returns_sentinel :
    vgid_system_run 2000
        [VgidEvent.reset, VgidEvent.step 0,
          VgidEvent.step 1, VgidEvent.step 1, VgidEvent.step 1, VgidEvent.step 1,
          VgidEvent.step 0]
        ⟨⟨1000, 1⟩, [VgidPc.line46, VgidPc.line46]⟩
      = ⟨⟨2000, 2⟩, [VgidPc.returned 4294967295, VgidPc.returned 2000]⟩ ∧
    INVALID_GID = 4294967295 ∧
    (4294967295 : Nat) ≠ 1000 ∧ (4294967295 : Nat) ≠ 2000 := by
  refine ⟨by decide, INVALID_GID_eq, by decide, by decide⟩

end LttngUst
